import Mathlib

/-!
# EagleSampleAndAcceptDraftTokensPlugin

A shallow embedding of
`cpp/tensorrt_llm/plugins/eaglePlugin/eagleSampleAndAcceptDraftTokensPlugin.cpp`:
the plugin configuration and its (de)serialisation, the plugin creator, the shape and
workspace queries, and one decoding step (`enqueue`).

Conventions.
* A C++ exception thrown by `TLLM_CHECK` / `TLLM_CHECK_WITH_INFO` is the `error` case of
  `Except String`, carrying the text of the check.
* A 32-bit object in memory is kept as its 32-bit pattern (`Word32`), a byte as `Byte`.
* A host pointer argument is the memory it points to: `Nat → Byte` gives the byte stored
  at each offset from the pointer.
* Device memory (`Memory`) maps a pointer (an input tensor, an output tensor, a byte offset
  into the workspace) to the array stored there; a step transforms a `Device`, the memory
  together with the list of kernel launches made.
* The Top-K sampling primitives are parameters (`Collaborators`).  The acceptance kernel,
  its parameter validation, the post-processing kernel and the workspace helpers live in
  other files of the repository; their definitions here follow the specification and say
  so in their doc comments.

The definitions come first, the proofs after them.
-/

namespace EaglePlugin

/-! ## Machine words -/

/-- A byte of memory. -/
abbrev Byte := Fin 256

/-- The bit pattern of a 32-bit object. -/
abbrev Word32 := Fin 4294967296

/-- nvinfer1::DataType is a scoped enumeration over `int32_t`; any 32-bit pattern can be
stored in an object of this type (createPlugin casts the field data to it unchecked). -/
abbrev DataType := Word32

/-- Enumerator `nvinfer1::DataType::kFLOAT`. -/
def DataType.kFLOAT : DataType := 0

/-- Enumerator `nvinfer1::DataType::kHALF`. -/
def DataType.kHALF : DataType := 1

/-- Enumerator `nvinfer1::DataType::kINT8`. -/
def DataType.kINT8 : DataType := 2

/-- Enumerator `nvinfer1::DataType::kINT32`. -/
def DataType.kINT32 : DataType := 3

/-- The conversion `(int) x` of an integer value to a 32-bit `int`: reduction modulo 2^32
into the range [-2^31, 2^31). -/
def castInt (x : Int) : Int :=
  let m := x % 4294967296
  if m < 2147483648 then m else m - 4294967296

/-- Value of `sizeof(nvinfer1::DataType)`: the enumeration's underlying type is `int32_t`. -/
def sizeofDataType : Nat := 4

/-- Value of `sizeof(bool)`. -/
def sizeofBool : Nat := 1

/-! ## Checks -/

/-- Macro `TLLM_CHECK_WITH_INFO(cond, info)` (common/assert.h): throws an exception
carrying the formatted `info` when `cond` is false. -/
def TLLM_CHECK_WITH_INFO (cond : Bool) (info : String) : Except String Unit :=
  if cond then .ok () else .error info

/-- Macro `TLLM_CHECK(cond)` (common/assert.h): throws an exception naming the failed
condition when `cond` is false; `text` is the source text of the condition. -/
def TLLM_CHECK (cond : Bool) (text : String) : Except String Unit :=
  if cond then .ok () else .error ("Assertion failed: " ++ text)

/-! ## Plugin configuration -/

/-- The data members of `EagleSampleAndAcceptDraftTokensPlugin`. -/
structure EagleSampleAndAcceptDraftTokensPlugin where
  mDtype : DataType
  mGreedySampling : Bool
deriving DecidableEq, Repr

/-- The message of the constructor's greedy-mode check (line 45). -/
def nonGreedyInfo : String := "Non-greedy sampling is not supported yet."

/-- The constructor `EagleSampleAndAcceptDraftTokensPlugin(type, greedySampling)`
(lines 40-46): the members are set, then the greedy flag is checked. -/
def EagleSampleAndAcceptDraftTokensPlugin.construct (type : DataType) (greedySampling : Bool) :
    Except String EagleSampleAndAcceptDraftTokensPlugin :=
  let mDtype := type
  let mGreedySampling := greedySampling
  match TLLM_CHECK_WITH_INFO mGreedySampling nonGreedyInfo with
  | .error e => .error e
  | .ok () => .ok ⟨mDtype, mGreedySampling⟩

/-! ## Serialisation -/

/-- The four bytes of a 32-bit pattern as `memcpy` stores them (least significant byte
first). -/
def bytesOfWord32 (v : Word32) : List Byte :=
  [⟨v.val % 256, Nat.mod_lt _ (by decide)⟩,
   ⟨v.val / 256 % 256, Nat.mod_lt _ (by decide)⟩,
   ⟨v.val / 65536 % 256, Nat.mod_lt _ (by decide)⟩,
   ⟨v.val / 16777216 % 256, Nat.mod_lt _ (by decide)⟩]

/-- The object representation of a `bool`: one byte, 1 for true and 0 for false. -/
def bytesOfBool (b : Bool) : List Byte := [if b then 1 else 0]

/-- Helper `write(d, val)` for a `DataType` (plugins/common/plugin.h): `memcpy` of the
value into the buffer, the cursor advanced by `sizeof(val)`.  The buffer is the list of
bytes written so far. -/
def writeDataType (buffer : List Byte) (val : DataType) : List Byte :=
  buffer ++ bytesOfWord32 val

/-- Helper `write(d, val)` for a `bool`. -/
def writeBool (buffer : List Byte) (val : Bool) : List Byte :=
  buffer ++ bytesOfBool val

/-- Helper `read(d, val)` for a `DataType` (plugins/common/plugin.h): `memcpy` of
`sizeof(val)` bytes at the cursor `d` into the value; returns the value and the advanced
cursor. -/
def readDataType (data : Nat → Byte) (d : Nat) : DataType × Nat :=
  (⟨(data d).val + 256 * (data (d + 1)).val + 65536 * (data (d + 2)).val
      + 16777216 * (data (d + 3)).val, by
      have h0 := (data d).isLt
      have h1 := (data (d + 1)).isLt
      have h2 := (data (d + 2)).isLt
      have h3 := (data (d + 3)).isLt
      omega⟩, d + sizeofDataType)

/-- Helper `read(d, val)` for a `bool`: the byte at the cursor becomes the object
representation of the flag.  The flag of the model is a truth value, so only the bytes 0
and 1, the ones `write` produces for a `bool`, are read back exactly: any other byte,
which the code copies in and out unchanged, reads as true here and its bit pattern is
not kept. -/
def readBool (data : Nat → Byte) (d : Nat) : Bool × Nat :=
  (decide ((data d).val ≠ 0), d + sizeofBool)

/-- Member function `getSerializationSize()` (lines 418-421). -/
def EagleSampleAndAcceptDraftTokensPlugin.getSerializationSize
    (_self : EagleSampleAndAcceptDraftTokensPlugin) : Nat :=
  sizeofDataType + sizeofBool

/-- Member function `serialize(buffer)` (lines 423-429): the bytes written to the buffer,
in order.  The closing `assert` on the cursor is not executed here; that it holds is part
of the round-trip theorem. -/
def EagleSampleAndAcceptDraftTokensPlugin.serialize
    (self : EagleSampleAndAcceptDraftTokensPlugin) : List Byte :=
  let d : List Byte := []
  let d := writeDataType d self.mDtype
  let d := writeBool d self.mGreedySampling
  d

/-- The message of the deserialising constructor's length check (lines 54-58), the two
`%d` arguments already converted to `int`. -/
def lengthMismatchInfo (expected real : Int) : String :=
  "Expected length (" ++ toString expected ++ ") != real length (" ++ toString real
    ++ "). This is often caused by using different TensorRT-LLM version to build "
    ++ "engine and run engine."

/-- The constructor `EagleSampleAndAcceptDraftTokensPlugin(data, length)` (lines 49-59).
Offsets are relative to `data`, so the start cursor `a` is 0. -/
def EagleSampleAndAcceptDraftTokensPlugin.deserialize (data : Nat → Byte) (length : Nat) :
    Except String EagleSampleAndAcceptDraftTokensPlugin :=
  let a : Nat := 0
  let d := a
  let (mDtype, d) := readDataType data d
  let (mGreedySampling, d) := readBool data d
  match TLLM_CHECK_WITH_INFO (d == a + length)
      (lengthMismatchInfo (castInt (length : Int)) (castInt ((d : Int) - (a : Int)))) with
  | .error e => .error e
  | .ok () => .ok ⟨mDtype, mGreedySampling⟩

/-- The memory behind a pointer to a buffer holding `bytes`; what lies past the buffer is
not specified by the program and is read as 0 here. -/
def memoryOf (bytes : List Byte) : Nat → Byte := fun i => bytes.getD i 0

/-! ## Plugin creator -/

/-- Enumeration nvinfer1::PluginFieldType (the enumerators the creator can meet). -/
inductive PluginFieldType where
  | kFLOAT16 | kFLOAT32 | kFLOAT64 | kINT8 | kINT16 | kINT32 | kCHAR | kDIMS | kUNKNOWN
deriving DecidableEq, Repr

/-- A field of nvinfer1::PluginFieldCollection: `data` is the 32-bit object the data pointer
points to (both fields read by the creator are read through a 32-bit pointer). -/
structure PluginField where
  name : String
  data : Word32
  type : PluginFieldType
  length : Int
deriving DecidableEq, Repr

/-- The loop of `createPlugin` (lines 471-484) over the remaining fields; the state is the
pair of locals `(type, greedySampling)`.  A failed `TLLM_CHECK` here is outside the
`try` block, so the exception leaves the body of `createPlugin` (which is `noexcept`:
the process ends). -/
def createPluginFields :
    List PluginField → DataType × Bool → Except String (DataType × Bool)
  | [], st => .ok st
  | f :: fs, (type, greedySampling) =>
    if f.name = "type_id" then
      match TLLM_CHECK (f.type == PluginFieldType.kINT32)
          "fields[i].type == PluginFieldType::kINT32" with
      | .error e => .error e
      | .ok () => createPluginFields fs (f.data, greedySampling)
    else if f.name = "greedy_sampling" then
      match TLLM_CHECK (f.type == PluginFieldType.kINT32)
          "fields[i].type == PluginFieldType::kINT32" with
      | .error e => .error e
      | .ok () => createPluginFields fs (type, decide (f.data ≠ 0))
    else createPluginFields fs (type, greedySampling)

/-- Member function `createPlugin(name, fc)` (lines 464-497).  `type0` and
`greedySampling0` are the indeterminate initial values of the two uninitialised locals.
The result is `error` when an exception leaves the function body, `ok none` when it
returns `nullptr` and `ok (some obj)` when it returns a plugin.  `setPluginNamespace`
stores the creator's namespace string in the base class; it does not touch the
configuration and is left out. -/
def createPlugin (type0 : DataType) (greedySampling0 : Bool) (fc : List PluginField) :
    Except String (Option EagleSampleAndAcceptDraftTokensPlugin) :=
  match createPluginFields fc (type0, greedySampling0) with
  | .error e => .error e
  | .ok (type, greedySampling) =>
    match EagleSampleAndAcceptDraftTokensPlugin.construct type greedySampling with
    | .ok obj => .ok (some obj)
    | .error _ => .ok none

/-- Member function `deserializePlugin(name, serialData, serialLength)` (lines 499-515):
`none` is the `nullptr` returned after the constructor's exception is caught. -/
def deserializePlugin (serialData : Nat → Byte) (serialLength : Nat) :
    Option EagleSampleAndAcceptDraftTokensPlugin :=
  match EagleSampleAndAcceptDraftTokensPlugin.deserialize serialData serialLength with
  | .ok obj => some obj
  | .error _ => none

/-- The value of the field called `name` as the loop of `createPlugin` sees it: the data
of the last field of that name, if there is one. -/
def fieldValue (name : String) : List PluginField → Option Word32
  | [] => none
  | f :: fs =>
    match fieldValue name fs with
    | some v => some v
    | none => if f.name = name then some f.data else none

/-- The fields the creator declares (lines 443-444) are 32-bit integer fields: a
collection conforms when its `type_id` and `greedy_sampling` fields carry that type. -/
def conformsToDeclaredFields (fc : List PluginField) : Prop :=
  ∀ f ∈ fc, (f.name = "type_id" ∨ f.name = "greedy_sampling") → f.type = PluginFieldType.kINT32

/-! ## Tensor descriptors -/

/-- Enumeration `InputIdxEntry` of the plugin: the six inputs.  `inputs[getIdx(e)]` is
written `inputs e`. -/
inductive InputIdxEntry where
  | LOGITS | DRAFT_TOKEN_IDS | DRAFT_LENS | TEMPERATURE | RAND_VALIDATION | PATHS
deriving DecidableEq, Repr

/-- Enumeration `OutputIdxEntry` of the plugin: the seven outputs, in the order of the
cases of `getOutputDimensions`.  `outputs[getIdx(e)]` is written `outputs e`. -/
inductive OutputIdxEntry where
  | ACCEPTED_TOKENS | ACCEPTED_LEN | BEST_ACCEPTED_PATHS | LAST_ACCEPTED_TOKEN_IDS
  | EXCLUSIVE_SUM_LAST_TOKEN_INDICES | NEXT_DRAFT_TOKEN_IDS | NEXT_DRAFT_LENS
deriving DecidableEq, Repr

/-- Type nvinfer1::DimsExprs (and nvinfer1::Dims for `E = Int`): a dimension count and
the array `d` of dimensions. -/
structure DimsExprs (E : Type) where
  nbDims : Int
  d : Nat → E

/-- Type nvinfer1::Dims. -/
abbrev Dims := DimsExprs Int

/-- Enumeration nvinfer1::TensorFormat (the enumerators met here). -/
inductive TensorFormat where
  | kLINEAR | kCHW2 | kHWC8 | kCHW4 | kCHW16 | kCHW32
deriving DecidableEq, Repr

/-- Type nvinfer1::PluginTensorDesc (the `scale` member is never read by the plugin and is
left out). -/
structure PluginTensorDesc where
  dims : Dims
  type : DataType
  format : TensorFormat

/-- Member function `getOutputDimensions(outputIndex, inputs, nbInputs, exprBuilder)`
(lines 69-113).  `ret0` is the indeterminate initial value of the local `ret`. -/
def getOutputDimensions {E : Type} (outputIndex : Int) (inputs : InputIdxEntry → DimsExprs E)
    (nbInputs : Int) (ret0 : DimsExprs E) : Except String (DimsExprs E) :=
  match TLLM_CHECK (nbInputs == 6) "nbInputs == 6" with
  | .error e => .error e
  | .ok () =>
  match TLLM_CHECK (decide (outputIndex < 7)) "outputIndex < 7" with
  | .error e => .error e
  | .ok () =>
    let batchSizeExpr := (inputs InputIdxEntry.PATHS).d 0
    let maxDecodingDraftTokensExpr := (inputs InputIdxEntry.DRAFT_TOKEN_IDS).d 1
    let maxPathLenExpr := (inputs InputIdxEntry.PATHS).d 2
    let ret := ret0
    if outputIndex = 0 then
      .ok ⟨2, Function.update (Function.update ret.d 0 batchSizeExpr) 1 maxPathLenExpr⟩
    else if outputIndex = 1 then
      .ok ⟨1, Function.update ret.d 0 batchSizeExpr⟩
    else if outputIndex = 2 then
      .ok ⟨1, Function.update ret.d 0 batchSizeExpr⟩
    else if outputIndex = 3 then
      .ok ⟨1, Function.update ret.d 0 batchSizeExpr⟩
    else if outputIndex = 4 then
      .ok ⟨1, Function.update ret.d 0 batchSizeExpr⟩
    else if outputIndex = 5 then
      .ok ⟨2, Function.update (Function.update ret.d 0 batchSizeExpr) 1
        maxDecodingDraftTokensExpr⟩
    else if outputIndex = 6 then
      .ok ⟨1, Function.update ret.d 0 batchSizeExpr⟩
    else .ok ret

/-! ## Workspace -/

/-- The template parameter `T` of the typed member functions: `float` or `__half`. -/
inductive Precision where
  | float | half
deriving DecidableEq, Repr

/-- The nvinfer1::DataType a template instance is selected for. -/
def Precision.dataType : Precision → DataType
  | .float => DataType.kFLOAT
  | .half => DataType.kHALF

/-- Value of `sizeof(TokenIdType)`: runtime/common.h declares it as `std::int32_t`. -/
def sizeofTokenIdType : Nat := 4

/-- Value of `sizeof(SizeType32)`: runtime/common.h declares it as `std::int32_t`. -/
def sizeofSizeType32 : Nat := 4

/-- Value of `sizeof(T*)`: a pointer of the 64-bit targets the library is built for. -/
def sizeofPointer : Nat := 8

/-- Conversion of a signed integer to `size_t` (64 bits): reduction modulo 2^64. -/
def toSizeT (x : Int) : Nat := (x % 18446744073709551616).toNat

/-- Multiplication of two `size_t` values. -/
def mulSizeT (a b : Nat) : Nat := a * b % 18446744073709551616

/-- A device pointer: the start of an input tensor, of an output tensor, or a byte offset
into the workspace. -/
inductive Ptr where
  | input (e : InputIdxEntry)
  | output (e : OutputIdxEntry)
  | workspace (offset : Nat)
deriving DecidableEq, Repr

/-- Device memory: the array of 32-bit or pointer-sized elements stored at each pointer
(for the logits, the bit patterns of the scores). -/
abbrev Memory := Ptr → List Int

/-- Field list of `TopKSamplingKernelParams<T>` as filled in lines 226-236. -/
structure TopKSamplingKernelParams where
  logProbsPtrs : Ptr
  outputIds : Ptr
  workspace : Ptr
  maxTopK : Int
  batchSize : Int
  maxBatchSize : Int
  tokensPerStep : Ptr
  maxTokensPerStep : Int
  maxSeqLen : Int
  vocabSizePadded : Int
deriving DecidableEq, Repr

/-- Field list of `AcceptDraftTokensByIdsWithPathsParams<T>` as filled in lines 271-284
(the stream is left out). -/
structure AcceptDraftTokensByIdsWithPathsParams where
  outputIds : Ptr
  draftIds : Ptr
  targetIds : Ptr
  acceptedLengths : Ptr
  paths : Ptr
  bestPathIds : Ptr
  batchSize : Int
  maxBatchSize : Int
  vocabSize : Int
  maxSeqLen : Int
  maxDraftPathLen : Int
  maxDecodingTokens : Int
deriving DecidableEq, Repr

/-- The collaborators of the plugin that the specification treats as library calls: the
Top-K sampling primitives of kernels/samplingTopKKernels and
kernels/speculativeDecoding, known here only by their interface, and the alignment
constant of the workspace helpers. -/
structure Collaborators where
  /-- Function `getTopKWorkspaceSize<T>(batchSize, maxTokensPerStep, maxTopK,
  vocabSizePadded)`. -/
  getTopKWorkspaceSize : Precision → Int → Int → Int → Int → Nat
  /-- Function `invokeAssembleTargetLogitsOffsets<T>`: from the logits, the previous draft
  lengths, batchSize, maxDecodingTokens and vocabSizePadded, the arrays it writes to
  `logitsPtrs` and to `decodingTokens`. -/
  invokeAssembleTargetLogitsOffsets :
    Precision → List Int → List Int → Int → Int → Int → List Int × List Int
  /-- Function `invokeBatchTopKSampling<T>`: from its parameters and the memory it reads,
  the token ids it writes to `params.outputIds`. -/
  invokeBatchTopKSampling : Precision → TopKSamplingKernelParams → Memory → List Int
  /-- The default alignment `kCudaMemAlign` of the workspace helpers. -/
  kCudaMemAlign : Nat

/-- Modelled from the spec: `tc::nextWorkspacePtr(base, offset, size)` of the workspace
helpers (tensorrt_llm/common, not part of the sources).  The spec (sections 5 and 9) has
the scratch workspace partitioned by pointer arithmetic into fixed, non-overlapping
sub-regions.  The model hands the request the current offset and advances the offset by
the size rounded up to the alignment; that both helpers round every region to the same
alignment is the model's reading of "sized by a sizing function", not a sentence of the
spec.  The offset is a `size_t` (lines 206 and 261): the new offset is reduced modulo
2^64.  Returns the pointer and the new offset. -/
def nextWorkspacePtr (alignment : Nat) (offset : Nat) (size : Nat) : Ptr × Nat :=
  (Ptr.workspace offset,
    (offset + (size + alignment - 1) / alignment * alignment) % 18446744073709551616)

/-- Modelled from the spec: `tc::calculateTotalWorkspaceSize(workspaces, count)` of the
workspace helpers (tensorrt_llm/common, not part of the sources), the sizing function of
the arena (spec sections 5, 6 and 9): the sum of the sizes, each rounded up to the
alignment `nextWorkspacePtr` uses.  The total is a `size_t` (line 142): the sum is reduced
modulo 2^64. -/
def calculateTotalWorkspaceSize (alignment : Nat) : List Nat → Nat
  | [] => 0
  | size :: rest =>
    ((size + alignment - 1) / alignment * alignment
      + calculateTotalWorkspaceSize alignment rest) % 18446744073709551616

/-- Member function `getWorkspaceSizeType<T>(inputs, nbInputs, outputs, nbOutputs)`
(lines 138-169).  The result is a `size_t`: the four sizes are `size_t` values and
`calculateTotalWorkspaceSize` reduces their aligned sum modulo 2^64. -/
def EagleSampleAndAcceptDraftTokensPlugin.getWorkspaceSizeType
    (_self : EagleSampleAndAcceptDraftTokensPlugin) (env : Collaborators) (T : Precision)
    (inputs : InputIdxEntry → PluginTensorDesc) (_nbInputs : Int)
    (_outputs : OutputIdxEntry → PluginTensorDesc) (_nbOutputs : Int) : Nat :=
  let vocabSizePadded := (inputs InputIdxEntry.LOGITS).dims.d 1
  let batchSize := (inputs InputIdxEntry.PATHS).dims.d 0
  let maxDecodingTokens := (inputs InputIdxEntry.PATHS).dims.d 1
  let primarySamplingWorkspaceSize :=
    env.getTopKWorkspaceSize T batchSize maxDecodingTokens 1 vocabSizePadded
  let targetOutputIdsSize := mulSizeT (toSizeT (batchSize * maxDecodingTokens)) sizeofTokenIdType
  let logitsPtrsSize := mulSizeT (toSizeT (batchSize * maxDecodingTokens)) sizeofPointer
  let workspaces : List Nat :=
    [primarySamplingWorkspaceSize, targetOutputIdsSize, logitsPtrsSize,
     mulSizeT (toSizeT batchSize) sizeofSizeType32]
  calculateTotalWorkspaceSize env.kCudaMemAlign workspaces

/-- The message of the precision dispatch (lines 185 and 379). -/
def unsupportedLogitsInfo : String := "Unsupported logits type"

/-- Member function `getWorkspaceSize(inputs, nbInputs, outputs, nbOutputs)`
(lines 171-188). -/
def EagleSampleAndAcceptDraftTokensPlugin.getWorkspaceSize
    (self : EagleSampleAndAcceptDraftTokensPlugin) (env : Collaborators)
    (inputs : InputIdxEntry → PluginTensorDesc) (nbInputs : Int)
    (outputs : OutputIdxEntry → PluginTensorDesc) (nbOutputs : Int) : Except String Nat :=
  let logitsType := (inputs InputIdxEntry.LOGITS).type
  if logitsType = DataType.kFLOAT then
    .ok (self.getWorkspaceSizeType env Precision.float inputs nbInputs outputs nbOutputs)
  else if logitsType = DataType.kHALF then
    .ok (self.getWorkspaceSizeType env Precision.half inputs nbInputs outputs nbOutputs)
  else
    match TLLM_CHECK_WITH_INFO false unsupportedLogitsInfo with
    | .error e => .error e
    | .ok () => .ok 0

/-! ## One decoding step: the sampler -/

/-- A kernel launch or validation pass, in stream order. -/
inductive Event where
  | assembleTargetLogitsOffsets (T : Precision)
  | batchTopKSampling (T : Precision)
  | checkParams
  | acceptDraftTokensByIdsWithPaths (T : Precision)
  | selectLastAccTokenAndComputeIndicesCumSum
deriving DecidableEq, Repr

/-- The device as a step sees it: the memory behind the input, output and workspace
pointers, and the launches made so far. -/
structure Device where
  mem : Memory
  trace : List Event

/-- The four sub-regions `samplePrimeHeadTokens` carves (lines 205-218) and the offset
reached after the last one. -/
structure SamplingWorkspace where
  workspaceSampling : Ptr
  outputIds : Ptr
  logitsPtrs : Ptr
  decodingTokens : Ptr
  offset : Nat
deriving DecidableEq, Repr

/-- Lines 197-218 of `samplePrimeHeadTokens<T>`: the shapes read from the descriptors and
the workspace carved with `nextWorkspacePtr`, starting from offset 0.  The offset is a
`size_t`, which `nextWorkspacePtr` advances modulo 2^64. -/
def samplePrimeHeadTokensWorkspace (env : Collaborators) (T : Precision)
    (inputDesc : InputIdxEntry → PluginTensorDesc) : SamplingWorkspace :=
  let vocabSizePadded := (inputDesc InputIdxEntry.LOGITS).dims.d 1
  let batchSize := (inputDesc InputIdxEntry.PATHS).dims.d 0
  let maxDecodingTokens := (inputDesc InputIdxEntry.PATHS).dims.d 1
  let offset : Nat := 0
  let samplingWorkspaceSize :=
    env.getTopKWorkspaceSize T batchSize maxDecodingTokens 1 vocabSizePadded
  let (workspaceSampling, offset) :=
    nextWorkspacePtr env.kCudaMemAlign offset samplingWorkspaceSize
  let (outputIds, offset) := nextWorkspacePtr env.kCudaMemAlign offset
    (mulSizeT (toSizeT (batchSize * maxDecodingTokens)) sizeofTokenIdType)
  let (logitsPtrs, offset) := nextWorkspacePtr env.kCudaMemAlign offset
    (mulSizeT (toSizeT (batchSize * maxDecodingTokens)) sizeofPointer)
  let (decodingTokens, offset) := nextWorkspacePtr env.kCudaMemAlign offset
    (mulSizeT (toSizeT batchSize) sizeofSizeType32)
  { workspaceSampling := workspaceSampling, outputIds := outputIds, logitsPtrs := logitsPtrs,
    decodingTokens := decodingTokens, offset := offset }

/-- Lines 226-236 of `samplePrimeHeadTokens<T>`: the parameters handed to
`invokeBatchTopKSampling`. -/
def samplePrimeHeadTokensParams (env : Collaborators) (T : Precision)
    (inputDesc : InputIdxEntry → PluginTensorDesc) : TopKSamplingKernelParams :=
  let vocabSizePadded := (inputDesc InputIdxEntry.LOGITS).dims.d 1
  let batchSize := (inputDesc InputIdxEntry.PATHS).dims.d 0
  let maxDecodingTokens := (inputDesc InputIdxEntry.PATHS).dims.d 1
  let ws := samplePrimeHeadTokensWorkspace env T inputDesc
  { logProbsPtrs := ws.logitsPtrs
    outputIds := ws.outputIds
    workspace := ws.workspaceSampling
    maxTopK := 1
    batchSize := batchSize
    maxBatchSize := batchSize
    tokensPerStep := ws.decodingTokens
    maxTokensPerStep := maxDecodingTokens
    maxSeqLen := maxDecodingTokens
    vocabSizePadded := vocabSizePadded }

/-- Member function `samplePrimeHeadTokens<T>(inputDesc, outputDesc, inputs, outputs,
workspace, stream)` (lines 190-243): the logits pointers are assembled, then the Top-1
sampling kernel writes one token id per node to `params.outputIds`.  What the kernel keeps
in its scratch `params.workspace` is not tracked; trace logging and
`sync_check_cuda_error` (a failure of the CUDA runtime) are left out, here and below. -/
def samplePrimeHeadTokens (env : Collaborators) (T : Precision)
    (inputDesc : InputIdxEntry → PluginTensorDesc) (dev : Device) : Device :=
  let vocabSizePadded := (inputDesc InputIdxEntry.LOGITS).dims.d 1
  let batchSize := (inputDesc InputIdxEntry.PATHS).dims.d 0
  let maxDecodingTokens := (inputDesc InputIdxEntry.PATHS).dims.d 1
  let logits := Ptr.input InputIdxEntry.LOGITS
  let prevDraftLens := Ptr.input InputIdxEntry.DRAFT_LENS
  let ws := samplePrimeHeadTokensWorkspace env T inputDesc
  let assembled := env.invokeAssembleTargetLogitsOffsets T (dev.mem logits)
    (dev.mem prevDraftLens) batchSize maxDecodingTokens vocabSizePadded
  let mem := Function.update (Function.update dev.mem ws.logitsPtrs assembled.1)
    ws.decodingTokens assembled.2
  let params := samplePrimeHeadTokensParams env T inputDesc
  let mem := Function.update mem params.outputIds (env.invokeBatchTopKSampling T params mem)
  { mem := mem
    trace := dev.trace ++ [Event.assembleTargetLogitsOffsets T, Event.batchTopKSampling T] }

/-! ## One decoding step: the acceptance walker -/

/-- An element of a device array; reading outside the array is not defined by the program
and gives 0 here. -/
def readAt (xs : List Int) (i : Int) : Int :=
  if i < 0 then 0 else xs.getD i.toNat 0

/-- Modelled from the spec: the reserved "invalid" sentinel of the path table (section 3);
the acceptance kernels of kernels/speculativeDecoding are not part of the sources.  Node
indices are non-negative, the sentinel is taken to be -1. -/
def kInvalidPathEntry : Int := -1

/-- Modelled from the spec: entry `k` of candidate path `p` of batch element `b` in the
path table `[batch, maxDecodingTokens, maxPathLen]` (sections 3 and 6). -/
def pathEntry (paths : List Int) (maxDecodingTokens maxPathLen : Int) (b p k : Nat) : Int :=
  readAt paths ((((b : Int) * maxDecodingTokens + (p : Int)) * maxPathLen) + (k : Int))

/-- Modelled from the spec: the token of tree node `node` of batch element `b` in a
per-node token array `[batch, maxDecodingTokens]` (section 6). -/
def nodeToken (ids : List Int) (maxDecodingTokens : Int) (b : Nat) (node : Int) : Int :=
  readAt ids ((b : Int) * maxDecodingTokens + node)

/-- Modelled from the spec: section 4.2 step 2, the walk along one path from position `k`
with `fuel` positions left.  At each step the draft token at the node is compared with the
base-model token sampled at the predecessor node of the path; a mismatch, the sentinel or
the end of the path stops the walk.  The result is the number of matched positions. -/
def matchFrom (paths draftIds targetIds : List Int) (maxDecodingTokens maxPathLen : Int)
    (b p : Nat) : Nat → Nat → Nat
  | 0, _ => 0
  | fuel + 1, k =>
    let node := pathEntry paths maxDecodingTokens maxPathLen b p k
    let pred := pathEntry paths maxDecodingTokens maxPathLen b p (k - 1)
    if node = kInvalidPathEntry then 0
    else if nodeToken draftIds maxDecodingTokens b node
        = nodeToken targetIds maxDecodingTokens b pred then
      1 + matchFrom paths draftIds targetIds maxDecodingTokens maxPathLen b p fuel (k + 1)
    else 0

/-- Modelled from the spec: a candidate path is valid when it exists, that is when its
first entry (the root) is not the sentinel (sections 3 and 4.2). -/
def pathValid (paths : List Int) (maxDecodingTokens maxPathLen : Int) (b p : Nat) : Bool :=
  decide (pathEntry paths maxDecodingTokens maxPathLen b p 0 ≠ kInvalidPathEntry)

/-- Modelled from the spec: the match length of candidate path `p` (section 4.2 step 2):
the walk starts at the first draft position and covers at most `maxDraftPathLen`
positions; a path that is not valid has no matched position. -/
def matchLength (paths draftIds targetIds : List Int)
    (maxDecodingTokens maxPathLen maxDraftPathLen : Int) (b p : Nat) : Nat :=
  if pathValid paths maxDecodingTokens maxPathLen b p then
    matchFrom paths draftIds targetIds maxDecodingTokens maxPathLen b p maxDraftPathLen.toNat 1
  else 0

/-- Modelled from the spec: section 4.2 step 3, the scan over the candidate paths in table
order.  `best` is the pair (match length, path index) of the best valid path met so far;
a later path replaces it only with a strictly greater match length, so the first path in
table order wins ties. -/
def selectBestPath (paths draftIds targetIds : List Int)
    (maxDecodingTokens maxPathLen maxDraftPathLen : Int) (b : Nat) :
    List Nat → Option (Nat × Nat) → Option (Nat × Nat)
  | [], best => best
  | p :: ps, best =>
    if pathValid paths maxDecodingTokens maxPathLen b p then
      let m := matchLength paths draftIds targetIds maxDecodingTokens maxPathLen
        maxDraftPathLen b p
      match best with
      | none =>
        selectBestPath paths draftIds targetIds maxDecodingTokens maxPathLen maxDraftPathLen b
          ps (some (m, p))
      | some (bestLen, bestPath) =>
        if bestLen < m then
          selectBestPath paths draftIds targetIds maxDecodingTokens maxPathLen maxDraftPathLen
            b ps (some (m, p))
        else
          selectBestPath paths draftIds targetIds maxDecodingTokens maxPathLen maxDraftPathLen
            b ps (some (bestLen, bestPath))
    else
      selectBestPath paths draftIds targetIds maxDecodingTokens maxPathLen maxDraftPathLen b
        ps best

/-- Modelled from the spec: section 4.2 steps 3 and 5 for batch element `b`: the pair
(accepted length, winning path id), the accepted length being the match length of the
winning path plus one for the root.  When no candidate path is valid only the root stands:
accepted length 1, path id 0 (the data model keeps the length at least 1 and the path id
inside the table). -/
def acceptElement (paths draftIds targetIds : List Int)
    (maxDecodingTokens maxPathLen maxDraftPathLen : Int) (b : Nat) : Nat × Nat :=
  match selectBestPath paths draftIds targetIds maxDecodingTokens maxPathLen maxDraftPathLen b
      (List.range maxDecodingTokens.toNat) none with
  | none => (1, 0)
  | some (m, p) => (m + 1, p)

/-- Modelled from the spec: `AcceptDraftTokensByIdsWithPathsParams::checkParams()`
(kernels/speculativeDecoding, not part of the sources).  Sections 4.2 and 7: inconsistent
dimensions and out-of-range path values are fatal and detected before the kernel is
dispatched.  The dimensions must admit the data model of section 3 (a vocabulary, the
root node, an accepted length between 1 and the row length), and every path entry of the
batch is the sentinel or a node index. -/
def checkParams (params : AcceptDraftTokensByIdsWithPathsParams) (mem : Memory) :
    Except String Unit :=
  match TLLM_CHECK (decide (0 ≤ params.batchSize ∧ params.batchSize ≤ params.maxBatchSize))
      "batchSize <= maxBatchSize" with
  | .error e => .error e
  | .ok () =>
  match TLLM_CHECK (decide (0 < params.vocabSize)) "vocabSize > 0" with
  | .error e => .error e
  | .ok () =>
  match TLLM_CHECK (decide (0 < params.maxDecodingTokens)) "maxDecodingTokens > 0" with
  | .error e => .error e
  | .ok () =>
  match TLLM_CHECK (decide (0 ≤ params.maxDraftPathLen
      ∧ params.maxDraftPathLen < params.maxSeqLen)) "maxDraftPathLen < maxSeqLen" with
  | .error e => .error e
  | .ok () =>
    TLLM_CHECK
      ((List.range (params.batchSize * params.maxDecodingTokens * params.maxSeqLen).toNat).all
        (fun (i : Nat) =>
          decide (readAt (mem params.paths) (i : Int) = kInvalidPathEntry
            ∨ (0 ≤ readAt (mem params.paths) (i : Int)
              ∧ readAt (mem params.paths) (i : Int) < params.maxDecodingTokens))))
      "paths in range"

/-- Modelled from the spec: the kernel `acceptDraftTokensByIdsWithPaths(params)`
(kernels/speculativeDecoding, not part of the sources), section 4.2.  For every batch
element it writes the accepted length and the winning path id, and the accepted tokens:
the base-model tokens sampled at the nodes of the winning path up to the accepted length
(step 4); what follows them in the row is left as it was. -/
def acceptDraftTokensByIdsWithPaths (params : AcceptDraftTokensByIdsWithPathsParams)
    (mem : Memory) : Memory :=
  let paths := mem params.paths
  let draftIds := mem params.draftIds
  let targetIds := mem params.targetIds
  let previous := mem params.outputIds
  let accepted : Nat → Nat × Nat := fun b =>
    acceptElement paths draftIds targetIds params.maxDecodingTokens params.maxSeqLen
      params.maxDraftPathLen b
  let rowLen := params.maxSeqLen.toNat
  let outputIds : List Int :=
    (List.range (params.batchSize.toNat * rowLen)).map (fun i =>
      let b := i / rowLen
      let k := i % rowLen
      if k < (accepted b).1 then
        nodeToken targetIds params.maxDecodingTokens b
          (pathEntry paths params.maxDecodingTokens params.maxSeqLen b (accepted b).2 k)
      else previous.getD i 0)
  let acceptedLengths : List Int :=
    (List.range params.batchSize.toNat).map (fun b => ((accepted b).1 : Int))
  let bestPathIds : List Int :=
    (List.range params.batchSize.toNat).map (fun b => ((accepted b).2 : Int))
  Function.update
    (Function.update (Function.update mem params.outputIds outputIds)
      params.acceptedLengths acceptedLengths)
    params.bestPathIds bestPathIds

/-- The two sub-regions `acceptDraftTokens` carves (lines 260-269) and the offset reached
after the second. -/
structure AcceptWorkspace where
  workspaceSampling : Ptr
  outputIds : Ptr
  offset : Nat
deriving DecidableEq, Repr

/-- Lines 252-269 of `acceptDraftTokens<T>`: the workspace carved with `nextWorkspacePtr`,
starting from offset 0.  The offset is a `size_t`, which `nextWorkspacePtr` advances
modulo 2^64. -/
def acceptDraftTokensWorkspace (env : Collaborators) (T : Precision)
    (inputDesc : InputIdxEntry → PluginTensorDesc) : AcceptWorkspace :=
  let vocabSizePadded := (inputDesc InputIdxEntry.LOGITS).dims.d 1
  let batchSize := (inputDesc InputIdxEntry.PATHS).dims.d 0
  let maxDecodingTokens := (inputDesc InputIdxEntry.PATHS).dims.d 1
  let offset : Nat := 0
  let samplingWorkspaceSize :=
    env.getTopKWorkspaceSize T batchSize maxDecodingTokens 1 vocabSizePadded
  let (workspaceSampling, offset) :=
    nextWorkspacePtr env.kCudaMemAlign offset samplingWorkspaceSize
  let (outputIds, offset) := nextWorkspacePtr env.kCudaMemAlign offset
    (mulSizeT (toSizeT (batchSize * maxDecodingTokens)) sizeofTokenIdType)
  { workspaceSampling := workspaceSampling, outputIds := outputIds, offset := offset }

/-- Lines 271-284 of `acceptDraftTokens<T>`: the parameters handed to the walker. -/
def acceptDraftTokensParams (env : Collaborators) (T : Precision)
    (inputDesc : InputIdxEntry → PluginTensorDesc) : AcceptDraftTokensByIdsWithPathsParams :=
  let vocabSizePadded := (inputDesc InputIdxEntry.LOGITS).dims.d 1
  let batchSize := (inputDesc InputIdxEntry.PATHS).dims.d 0
  let maxDecodingTokens := (inputDesc InputIdxEntry.PATHS).dims.d 1
  let maxPathLen := (inputDesc InputIdxEntry.PATHS).dims.d 2
  let maxDraftPathLen := maxPathLen - 1
  let outputIds := (acceptDraftTokensWorkspace env T inputDesc).outputIds
  { outputIds := Ptr.output OutputIdxEntry.ACCEPTED_TOKENS
    draftIds := Ptr.input InputIdxEntry.DRAFT_TOKEN_IDS
    targetIds := outputIds
    acceptedLengths := Ptr.output OutputIdxEntry.ACCEPTED_LEN
    paths := Ptr.input InputIdxEntry.PATHS
    bestPathIds := Ptr.output OutputIdxEntry.BEST_ACCEPTED_PATHS
    batchSize := batchSize
    maxBatchSize := batchSize
    vocabSize := vocabSizePadded
    maxSeqLen := maxPathLen
    maxDraftPathLen := maxDraftPathLen
    maxDecodingTokens := maxDecodingTokens }

/-- Member function `acceptDraftTokens<T>(inputDesc, outputDesc, inputs, outputs,
workspace, stream)` (lines 245-293): the parameters are validated, then the walker kernel runs.  When the
validation throws, the kernel is not dispatched. -/
def acceptDraftTokens (env : Collaborators) (T : Precision)
    (inputDesc : InputIdxEntry → PluginTensorDesc) (dev : Device) :
    Device × Except String Unit :=
  let params := acceptDraftTokensParams env T inputDesc
  match checkParams params dev.mem with
  | .error e => ({ mem := dev.mem, trace := dev.trace ++ [Event.checkParams] }, .error e)
  | .ok () =>
    ({ mem := acceptDraftTokensByIdsWithPaths params dev.mem
       trace := dev.trace ++ [Event.checkParams, Event.acceptDraftTokensByIdsWithPaths T] },
     .ok ())

/-- Member function `doGreedy<T>` (lines 295-309): the sampler, then the walker. -/
def doGreedy (env : Collaborators) (T : Precision)
    (inputDesc : InputIdxEntry → PluginTensorDesc) (dev : Device) :
    Device × Except String Unit :=
  let dev := samplePrimeHeadTokens env T inputDesc dev
  acceptDraftTokens env T inputDesc dev

/-! ## One decoding step: post-processing and the orchestrator -/

/-- Modelled from the spec: section 4.3 (b), the exclusive prefix sum, in batch order, of
the accepted lengths minus one; `acc` is the running total of the elements already
passed. -/
def exclusiveSumFrom : Int → List Int → List Int
  | _, [] => []
  | acc, len :: rest => acc :: exclusiveSumFrom (acc + (len - 1)) rest

/-- Modelled from the spec: the kernel `invokeSelectLastAccTokenAndComputeIndicesCumSum`
(kernels/speculativeDecoding, not part of the sources), section 4.3: for every batch
element (a) the last accepted token, the final element of its accepted sequence, and (b)
the exclusive prefix sum of the accepted lengths minus one. -/
def invokeSelectLastAccTokenAndComputeIndicesCumSum
    (lastAcceptedTokenIds exclusiveSumLastAcceptedIndices _prevDraftLens acceptedTokenIds
      acceptedLengths _bestPathIds _paths : Ptr)
    (batchSize _maxDecodingTokens maxPathLen : Int) (mem : Memory) : Memory :=
  let lengths : List Int :=
    (List.range batchSize.toNat).map (fun (b : Nat) => readAt (mem acceptedLengths) (b : Int))
  let lastTokens : List Int :=
    (List.range batchSize.toNat).map (fun (b : Nat) =>
      readAt (mem acceptedTokenIds)
        ((b : Int) * maxPathLen + (readAt (mem acceptedLengths) (b : Int) - 1)))
  Function.update (Function.update mem lastAcceptedTokenIds lastTokens)
    exclusiveSumLastAcceptedIndices (exclusiveSumFrom 0 lengths)

/-- Member function `selectLastAccTokenAndComputeIndicesCumSum(inputDesc, outputDesc,
inputs, outputs,
workspace, stream)` (lines 311-338). -/
def selectLastAccTokenAndComputeIndicesCumSum
    (inputDesc : InputIdxEntry → PluginTensorDesc) (dev : Device) : Device :=
  let batchSize := (inputDesc InputIdxEntry.PATHS).dims.d 0
  let maxDecodingTokens := (inputDesc InputIdxEntry.PATHS).dims.d 1
  let maxPathLen := (inputDesc InputIdxEntry.PATHS).dims.d 2
  let lastAcceptedTokenIds := Ptr.output OutputIdxEntry.LAST_ACCEPTED_TOKEN_IDS
  let exclusiveSumLastAcceptedIndices :=
    Ptr.output OutputIdxEntry.EXCLUSIVE_SUM_LAST_TOKEN_INDICES
  let prevDraftLens := Ptr.input InputIdxEntry.DRAFT_LENS
  let acceptedTokenIds := Ptr.output OutputIdxEntry.ACCEPTED_TOKENS
  let acceptedLengths := Ptr.output OutputIdxEntry.ACCEPTED_LEN
  let bestPathIds := Ptr.output OutputIdxEntry.BEST_ACCEPTED_PATHS
  let paths := Ptr.input InputIdxEntry.PATHS
  { mem := invokeSelectLastAccTokenAndComputeIndicesCumSum lastAcceptedTokenIds
      exclusiveSumLastAcceptedIndices prevDraftLens acceptedTokenIds acceptedLengths
      bestPathIds paths batchSize maxDecodingTokens maxPathLen dev.mem
    trace := dev.trace ++ [Event.selectLastAccTokenAndComputeIndicesCumSum] }

/-- The message of the non-greedy branch of `enqueueType` (line 355). -/
def nonGreedyEnqueueInfo : String := "Non-greedy sampling is not supported yet"

/-- Member function `enqueueType<T>(inputDesc, outputDesc, inputs, outputs, workspace, stream)`
(lines 340-362). -/
def EagleSampleAndAcceptDraftTokensPlugin.enqueueType
    (self : EagleSampleAndAcceptDraftTokensPlugin) (env : Collaborators) (T : Precision)
    (inputDesc : InputIdxEntry → PluginTensorDesc)
    (_outputDesc : OutputIdxEntry → PluginTensorDesc) (dev : Device) :
    Device × Except String Unit :=
  if self.mGreedySampling then
    match doGreedy env T inputDesc dev with
    | (dev, .error e) => (dev, .error e)
    | (dev, .ok ()) => (selectLastAccTokenAndComputeIndicesCumSum inputDesc dev, .ok ())
  else
    match TLLM_CHECK_WITH_INFO false nonGreedyEnqueueInfo with
    | .error e => (dev, .error e)
    | .ok () => (selectLastAccTokenAndComputeIndicesCumSum inputDesc dev, .ok ())

/-- Member function `enqueue(inputDesc, outputDesc, inputs, outputs, workspace, stream)`
(lines 364-383):
the device after the call, and the returned value or the exception. -/
def EagleSampleAndAcceptDraftTokensPlugin.enqueue
    (self : EagleSampleAndAcceptDraftTokensPlugin) (env : Collaborators)
    (inputDesc : InputIdxEntry → PluginTensorDesc)
    (outputDesc : OutputIdxEntry → PluginTensorDesc) (dev : Device) :
    Device × Except String Int :=
  let logitsType := (inputDesc InputIdxEntry.LOGITS).type
  if logitsType = DataType.kFLOAT then
    match self.enqueueType env Precision.float inputDesc outputDesc dev with
    | (dev, .error e) => (dev, .error e)
    | (dev, .ok ()) => (dev, .ok 0)
  else if logitsType = DataType.kHALF then
    match self.enqueueType env Precision.half inputDesc outputDesc dev with
    | (dev, .error e) => (dev, .error e)
    | (dev, .ok ()) => (dev, .ok 0)
  else
    match TLLM_CHECK_WITH_INFO false unsupportedLogitsInfo with
    | .error e => (dev, .error e)
    | .ok () => (dev, .ok 0)

/-- The template instance a kernel launch belongs to, when it has one. -/
def Event.precision : Event → Option Precision
  | .assembleTargetLogitsOffsets T => some T
  | .batchTopKSampling T => some T
  | .checkParams => none
  | .acceptDraftTokensByIdsWithPaths T => some T
  | .selectLastAccTokenAndComputeIndicesCumSum => none

/-! ## Copies and format negotiation -/

/-- Member function `clone()` (lines 62-67): the copy constructor copies both members; no
check runs. -/
def EagleSampleAndAcceptDraftTokensPlugin.clone
    (self : EagleSampleAndAcceptDraftTokensPlugin) : EagleSampleAndAcceptDraftTokensPlugin :=
  ⟨self.mDtype, self.mGreedySampling⟩

/-- Member function `supportsFormatCombination(pos, inOut, nbInputs, nbOutputs)`
(lines 115-131).  `getIdx` gives the position of each input, the numbering of the
enumeration `InputIdxEntry` in the plugin's header; `inOut` is the array of input and
output descriptors by position. -/
def EagleSampleAndAcceptDraftTokensPlugin.supportsFormatCombination
    (self : EagleSampleAndAcceptDraftTokensPlugin) (getIdx : InputIdxEntry → Int)
    (pos : Int) (inOut : Int → PluginTensorDesc) (_nbInputs _nbOutputs : Int) : Bool :=
  if pos = getIdx InputIdxEntry.LOGITS then
    decide ((inOut pos).type = self.mDtype) && decide ((inOut pos).format = TensorFormat.kLINEAR)
  else if pos = getIdx InputIdxEntry.TEMPERATURE ∨ pos = getIdx InputIdxEntry.RAND_VALIDATION then
    decide ((inOut pos).type = DataType.kFLOAT)
      && decide ((inOut pos).format = TensorFormat.kLINEAR)
  else
    decide ((inOut pos).type = DataType.kINT32)
      && decide ((inOut pos).format = TensorFormat.kLINEAR)

/-! ## Statements about shapes and regions -/

/-- A dimension query returned the shape `shape`: it did not throw, `nbDims` is the length
of `shape` and the leading entries of `d` are its elements. -/
def ReturnsShape {E : Type} (r : Except String (DimsExprs E)) (shape : List E) : Prop :=
  ∃ x, r = .ok x ∧ x.nbDims = (shape.length : Int)
    ∧ ∀ i, i < shape.length → shape.get? i = some (x.d i)

/-- Size in bytes of the first sub-region of the workspace, the sampling workspace. -/
def samplingWorkspaceBytes (env : Collaborators) (T : Precision)
    (inputDesc : InputIdxEntry → PluginTensorDesc) : Nat :=
  env.getTopKWorkspaceSize T ((inputDesc InputIdxEntry.PATHS).dims.d 0)
    ((inputDesc InputIdxEntry.PATHS).dims.d 1) 1 ((inputDesc InputIdxEntry.LOGITS).dims.d 1)

/-- A call ended in a fatal error. -/
def Fatal {α : Type} (r : Except String α) : Prop := ∃ e, r = .error e

/-- Dimensions given as a list; entries past the list read as 0. -/
def dimsOf (ds : List Int) : Dims := ⟨(ds.length : Int), fun i => ds.getD i 0⟩

/-- Element `i` of output tensor `e` on a device. -/
def outputTensor (dev : Device) (e : OutputIdxEntry) (i : Nat) : Int :=
  readAt (dev.mem (Ptr.output e)) (i : Int)

/-- The token ids the Top-1 sampler leaves at its `outputIds` pointer: the base-model
token sampled at every tree node. -/
def sampledTokenIds (env : Collaborators) (T : Precision)
    (inputDesc : InputIdxEntry → PluginTensorDesc) (dev : Device) : List Int :=
  (samplePrimeHeadTokens env T inputDesc dev).mem
    (samplePrimeHeadTokensParams env T inputDesc).outputIds

/-- The match length of candidate path `p` of batch element `b` in a step: the draft tokens
and paths are the step's inputs, the base-model tokens are those the sampler produced, and
the walk covers the draft positions of a path, maxPathLen - 1 of them. -/
def stepMatchLength (env : Collaborators) (T : Precision)
    (inputDesc : InputIdxEntry → PluginTensorDesc) (dev : Device) (b p : Nat) : Nat :=
  matchLength (dev.mem (Ptr.input InputIdxEntry.PATHS))
    (dev.mem (Ptr.input InputIdxEntry.DRAFT_TOKEN_IDS)) (sampledTokenIds env T inputDesc dev)
    ((inputDesc InputIdxEntry.PATHS).dims.d 1) ((inputDesc InputIdxEntry.PATHS).dims.d 2)
    ((inputDesc InputIdxEntry.PATHS).dims.d 2 - 1) b p

/-- Candidate path `p` of batch element `b` is valid in a step. -/
def stepPathValid (inputDesc : InputIdxEntry → PluginTensorDesc) (dev : Device)
    (b p : Nat) : Prop :=
  pathValid (dev.mem (Ptr.input InputIdxEntry.PATHS))
    ((inputDesc InputIdxEntry.PATHS).dims.d 1) ((inputDesc InputIdxEntry.PATHS).dims.d 2) b p
    = true

/-- Position `k` of candidate path `p` of batch element `b` matches in a step: the entry is
a node, and the draft token at that node equals the base-model token sampled at the
predecessor node of the path. -/
def stepMatchAt (env : Collaborators) (T : Precision)
    (inputDesc : InputIdxEntry → PluginTensorDesc) (dev : Device) (b p k : Nat) : Prop :=
  pathEntry (dev.mem (Ptr.input InputIdxEntry.PATHS)) ((inputDesc InputIdxEntry.PATHS).dims.d 1)
      ((inputDesc InputIdxEntry.PATHS).dims.d 2) b p k ≠ kInvalidPathEntry
    ∧ nodeToken (dev.mem (Ptr.input InputIdxEntry.DRAFT_TOKEN_IDS))
        ((inputDesc InputIdxEntry.PATHS).dims.d 1) b
        (pathEntry (dev.mem (Ptr.input InputIdxEntry.PATHS))
          ((inputDesc InputIdxEntry.PATHS).dims.d 1) ((inputDesc InputIdxEntry.PATHS).dims.d 2)
          b p k)
      = nodeToken (sampledTokenIds env T inputDesc dev)
          ((inputDesc InputIdxEntry.PATHS).dims.d 1) b
          (pathEntry (dev.mem (Ptr.input InputIdxEntry.PATHS))
            ((inputDesc InputIdxEntry.PATHS).dims.d 1)
            ((inputDesc InputIdxEntry.PATHS).dims.d 2) b p (k - 1))

/-- The state of the scan over the candidate paths is right for the paths `seen` so far:
with no best path yet, none of them is valid; otherwise the best path is one of them, is
valid, carries its own match length, no valid path seen has a greater match length, and
none with the same match length has a smaller index. -/
def BestAmong (paths draftIds targetIds : List Int)
    (maxDecodingTokens maxPathLen maxDraftPathLen : Int) (b : Nat) (seen : Nat → Prop) :
    Option (Nat × Nat) → Prop
  | none => ∀ q, seen q → pathValid paths maxDecodingTokens maxPathLen b q = false
  | some (m, w) =>
    seen w ∧ pathValid paths maxDecodingTokens maxPathLen b w = true
      ∧ m = matchLength paths draftIds targetIds maxDecodingTokens maxPathLen maxDraftPathLen
          b w
      ∧ ∀ q, seen q → pathValid paths maxDecodingTokens maxPathLen b q = true →
          matchLength paths draftIds targetIds maxDecodingTokens maxPathLen maxDraftPathLen b q
              ≤ m
            ∧ (matchLength paths draftIds targetIds maxDecodingTokens maxPathLen
                maxDraftPathLen b q = m → w ≤ q)

/-! ## Example data -/

/-- Input shapes of a build with batch 2, 3 draft tokens, 4 decoding tokens and paths of
length 5 (logits for 8 nodes over a vocabulary of 7). -/
def exampleShapes : InputIdxEntry → DimsExprs Int
  | .LOGITS => dimsOf [8, 7]
  | .DRAFT_TOKEN_IDS => dimsOf [2, 3]
  | .DRAFT_LENS => dimsOf [2]
  | .TEMPERATURE => dimsOf [2]
  | .RAND_VALIDATION => dimsOf [2]
  | .PATHS => dimsOf [2, 4, 5]

/-- A Top-1 choice over one row of scores: the index of the greatest score, the lowest
index among equals. -/
def exampleArgmax : List Int → Nat → Nat × Int → Nat
  | [], _, best => best.1
  | x :: xs, i, best => if best.2 < x then exampleArgmax xs (i + 1) (i, x)
      else exampleArgmax xs (i + 1) best

/-- Collaborators for the examples: 16 bytes of sampling scratch per node, rows of logits
laid out node after node, Top-1 by `exampleArgmax`, alignment 128. -/
def exampleEnv : Collaborators where
  getTopKWorkspaceSize := fun _ batchSize maxTokensPerStep _ _ =>
    (batchSize * maxTokensPerStep).toNat * 16
  invokeAssembleTargetLogitsOffsets := fun _ _ prevDraftLens batchSize maxDecodingTokens
      vocabSizePadded =>
    ((List.range (batchSize * maxDecodingTokens).toNat).map
      (fun n => (n : Int) * vocabSizePadded), prevDraftLens)
  invokeBatchTopKSampling := fun _ params mem =>
    (mem params.logProbsPtrs).map (fun start =>
      (exampleArgmax
        (((mem (Ptr.input InputIdxEntry.LOGITS)).drop start.toNat).take
          params.vocabSizePadded.toNat) 0 (0, -1000000) : Int))
  kCudaMemAlign := 128

/-- Input descriptors of a step with `batch` elements, 4 tree nodes per element, paths of
length 4 and a vocabulary of 3, the logits declared with type `logitsType`. -/
def exampleInputDesc (logitsType : DataType) (batch : Int) :
    InputIdxEntry → PluginTensorDesc
  | .LOGITS => ⟨dimsOf [batch * 4, 3], logitsType, TensorFormat.kLINEAR⟩
  | .DRAFT_TOKEN_IDS => ⟨dimsOf [batch, 4], DataType.kINT32, TensorFormat.kLINEAR⟩
  | .DRAFT_LENS => ⟨dimsOf [batch], DataType.kINT32, TensorFormat.kLINEAR⟩
  | .TEMPERATURE => ⟨dimsOf [batch], DataType.kFLOAT, TensorFormat.kLINEAR⟩
  | .RAND_VALIDATION => ⟨dimsOf [batch], DataType.kFLOAT, TensorFormat.kLINEAR⟩
  | .PATHS => ⟨dimsOf [batch, 4, 4], DataType.kINT32, TensorFormat.kLINEAR⟩

/-- Output descriptors matching `exampleInputDesc`. -/
def exampleOutputDesc (batch : Int) : OutputIdxEntry → PluginTensorDesc
  | .ACCEPTED_TOKENS => ⟨dimsOf [batch, 4], DataType.kINT32, TensorFormat.kLINEAR⟩
  | .NEXT_DRAFT_TOKEN_IDS => ⟨dimsOf [batch, 4], DataType.kINT32, TensorFormat.kLINEAR⟩
  | _ => ⟨dimsOf [batch], DataType.kINT32, TensorFormat.kLINEAR⟩

/-- A device holding the given logits, draft tokens, draft lengths and paths, everything
else empty, no launch made yet. -/
def exampleDevice (logits draftTokenIds draftLens paths : List Int) : Device where
  mem := fun ptr =>
    match ptr with
    | .input .LOGITS => logits
    | .input .DRAFT_TOKEN_IDS => draftTokenIds
    | .input .DRAFT_LENS => draftLens
    | .input .PATHS => paths
    | _ => []
  trace := []

/-- Scenario A of the specification: one batch element, one candidate path 0-1-2-3 (the
other rows of the table are padding), the base model samples tokens 2, 1, 0, 2 at the four
nodes and the draft tokens at nodes 1, 2, 3 are 2, 1, 0. -/
def scenarioA : Device :=
  exampleDevice [0, 0, 5, 0, 5, 0, 5, 0, 0, 0, 0, 5] [9, 2, 1, 0] [4]
    [0, 1, 2, 3, -1, -1, -1, -1, -1, -1, -1, -1, -1, -1, -1, -1]

/-- Scenario C of the specification: two batch elements with accepted lengths 3 and 1.
Element 0 has the path 0-1-2-3 matching at two positions, element 1 has the path 0-1
mismatching at the first. -/
def scenarioC : Device :=
  exampleDevice
    [0, 0, 5, 0, 5, 0, 5, 0, 0, 0, 0, 5, 0, 5, 0, 0, 0, 0, 0, 0, 0, 0, 0, 0]
    [9, 2, 1, 1, 9, 2, 0, 0] [4, 2]
    [0, 1, 2, 3, -1, -1, -1, -1, -1, -1, -1, -1, -1, -1, -1, -1,
     0, 1, -1, -1, -1, -1, -1, -1, -1, -1, -1, -1, -1, -1, -1, -1]

/-- Two equal candidate paths: one batch element, two tree nodes, rows of length 2, both
rows the path 0-1.  The base model samples token 1 at the root and the draft token at
node 1 is 1, so both paths match at their one draft position. -/
def tiedPaths : Device :=
  exampleDevice [0, 5, 0, 0, 0, 5] [9, 1] [2] [0, 1, 0, 1]

/-- Input descriptors for `tiedPaths` and `outOfRangePath`: one batch element, two tree
nodes, paths of length 2, a vocabulary of 3. -/
def twoPathDesc : InputIdxEntry → PluginTensorDesc
  | .LOGITS => ⟨dimsOf [2, 3], DataType.kFLOAT, TensorFormat.kLINEAR⟩
  | .DRAFT_TOKEN_IDS => ⟨dimsOf [1, 2], DataType.kINT32, TensorFormat.kLINEAR⟩
  | .PATHS => ⟨dimsOf [1, 2, 2], DataType.kINT32, TensorFormat.kLINEAR⟩
  | _ => ⟨dimsOf [1], DataType.kINT32, TensorFormat.kLINEAR⟩

/-- A malformed path table: as `tiedPaths`, but the second entry of row 0 is 7, which is
neither the sentinel nor one of the two tree nodes. -/
def outOfRangePath : Device :=
  exampleDevice [0, 5, 0, 0, 0, 5] [9, 1] [2] [0, 7, 0, 1]

/-- The numbering of the inputs used in the examples: logits, draft token ids, draft
lengths, temperature, validation randoms, paths. -/
def exampleGetIdx : InputIdxEntry → Int
  | .LOGITS => 0
  | .DRAFT_TOKEN_IDS => 1
  | .DRAFT_LENS => 2
  | .TEMPERATURE => 3
  | .RAND_VALIDATION => 4
  | .PATHS => 5

end EaglePlugin

/-! # Packed attention masks (thop/fmhaPackMaskOp.cpp) -/

namespace torch_ext

/-- Element type tag `at::ScalarType` of a tensor, as far as the file tells the tags
apart. -/
inductive ScalarType
  | Float
  | Half
  | BFloat16
  | Bool
  | Int
  | Long
  | Double
  deriving DecidableEq, Repr

/-- Where a tensor lives. -/
inductive DeviceType
  | CPU
  | CUDA
  deriving DecidableEq, Repr

/-- What the file observes of a `torch::Tensor`: its sizes, its element type and its
device.  The contents of a tensor are not represented. -/
structure Tensor where
  sizes : List Int
  scalar_type : ScalarType
  device : DeviceType
  deriving DecidableEq, Repr

/-- Member function `Tensor::numel()`: the number of elements. -/
def Tensor.numel (t : Tensor) : Int := t.sizes.prod

/-- Member function `Tensor::dim()`: the number of dimensions. -/
def Tensor.dim (t : Tensor) : Int := (t.sizes.length : Int)

/-- Member function `Tensor::size(i)` for an index inside the tensor's dimensions. -/
def Tensor.size (t : Tensor) (i : Nat) : Int := t.sizes.getD i 0

/-- The conversion of an integer value to `int64_t`: reduction modulo 2^64 into the
range [-2^63, 2^63). -/
def castInt64 (x : Int) : Int :=
  let m := x % 18446744073709551616
  if m < 9223372036854775808 then m else m - 18446744073709551616

/-- Macro `TORCH_CHECK(cond, msg)`: throws an exception carrying `msg` when `cond` is
false. -/
def TORCH_CHECK (cond : Bool) (msg : String) : Except String Unit :=
  if cond then .ok () else .error msg

/-- Library function `torch::empty(sizes, torch::dtype(dtype).device(torch::kCUDA))`: a
fresh tensor on the device with the sizes given; a negative size is refused.  Running out
of device memory is not represented. -/
def torch_empty (sizes : List Int) (dtype : ScalarType) : Except String Tensor :=
  if sizes.all (fun s => decide (0 ≤ s)) then .ok ⟨sizes, dtype, DeviceType.CUDA⟩
  else .error "Trying to create tensor with negative dimension"

/-- What the file takes from headers outside the sources at hand: the two alignment
constants (kernels/contextFusedMultiHeadAttention/fmhaPackedMask.h), the helper `divUp` at
type `int` (common/mathUtils.h) and the two tensor checks (thop/thUtils.h). -/
structure Headers where
  FLASH_ATTEN_PACKED_MASK_M_ALIGNMENT : Int
  FLASH_ATTEN_PACKED_MASK_N_ALIGNMENT : Int
  divUp : Int → Int → Int
  CHECK_CONTIGUOUS : Tensor → Except String Unit
  CHECK_TH_CUDA : Tensor → Except String Unit

/-- Function `pack_fmha_mask_by_type`: allocates `cu_mask_rows` and the packed mask and
returns the packed mask.  The three `int64_t` arguments are integers; `int(x)` is
`castInt`, and the product stored in an `int` is reduced to the range of `int`.  The
kernel `invokeBuildPackedMask` fills the two tensors and changes no shape, so it leaves no
trace in a tensor descriptor. -/
def pack_fmha_mask_by_type (P : Headers) (_actual_q_seqlens _actual_kv_seqlens : Tensor)
    (_attention_mask_type batch_size max_q_seqlen max_kv_seqlen : Int) :
    Except String Tensor := do
  let _cu_mask_rows ← torch_empty [castInt64 (batch_size + 1)] ScalarType.Int
  let aligned_rows : Int :=
    EaglePlugin.castInt
      (P.divUp (EaglePlugin.castInt max_q_seqlen)
          (EaglePlugin.castInt P.FLASH_ATTEN_PACKED_MASK_M_ALIGNMENT)
        * P.FLASH_ATTEN_PACKED_MASK_M_ALIGNMENT)
  let aligned_cols : Int :=
    EaglePlugin.castInt
      (P.divUp (EaglePlugin.castInt max_kv_seqlen)
          (EaglePlugin.castInt P.FLASH_ATTEN_PACKED_MASK_N_ALIGNMENT)
        * P.FLASH_ATTEN_PACKED_MASK_N_ALIGNMENT)
  let packed_mask ← torch_empty [batch_size, aligned_rows, Int.tdiv aligned_cols 32]
    ScalarType.Int
  return packed_mask

/-- Function `pack_fmha_mask_by_input_helper<T>`: checks the mask and the query lengths,
reads the three sizes of the mask into `int` variables, allocates `cu_mask_rows` and the
packed mask and returns the packed mask.  The element type `T` and `valid_pos_value` reach
only the kernel parameters, so they are left out; the kernel `invokeBuildPackedMask` fills
the two tensors and changes no shape. -/
def pack_fmha_mask_by_input_helper (P : Headers)
    (mask_input actual_q_seqlens _actual_kv_seqlens : Tensor) : Except String Tensor := do
  P.CHECK_CONTIGUOUS mask_input
  P.CHECK_TH_CUDA mask_input
  P.CHECK_CONTIGUOUS actual_q_seqlens
  P.CHECK_TH_CUDA actual_q_seqlens
  TORCH_CHECK (mask_input.numel != 0 && actual_q_seqlens.numel != 0)
    "input should not be empty tensor"
  TORCH_CHECK (mask_input.dim == 3)
    "Invalid dim. The dim of mask_input should be 3, [batch_size, max_q_seqlen, max_kv_seqlen]"
  let maskDataType := mask_input.scalar_type
  TORCH_CHECK (maskDataType == ScalarType.Float || maskDataType == ScalarType.Half
      || maskDataType == ScalarType.BFloat16 || maskDataType == ScalarType.Bool
      || maskDataType == ScalarType.Int)
    "Invalid datatype. input must be FP16, BF16, FP32, Bool or INT32"
  let batch_size : Int := EaglePlugin.castInt (mask_input.size 0)
  let max_q_seqlen : Int := EaglePlugin.castInt (mask_input.size 1)
  let max_kv_seqlen : Int := EaglePlugin.castInt (mask_input.size 2)
  let _cu_mask_rows ← torch_empty [EaglePlugin.castInt (batch_size + 1)] ScalarType.Int
  let aligned_rows : Int :=
    EaglePlugin.castInt
      (P.divUp max_q_seqlen (EaglePlugin.castInt P.FLASH_ATTEN_PACKED_MASK_M_ALIGNMENT)
        * P.FLASH_ATTEN_PACKED_MASK_M_ALIGNMENT)
  let aligned_cols : Int :=
    EaglePlugin.castInt
      (P.divUp max_kv_seqlen (EaglePlugin.castInt P.FLASH_ATTEN_PACKED_MASK_N_ALIGNMENT)
        * P.FLASH_ATTEN_PACKED_MASK_N_ALIGNMENT)
  let packed_mask ← torch_empty [batch_size, aligned_rows, Int.tdiv aligned_cols 32]
    ScalarType.Int
  return packed_mask

/-! ## Statements about the packed mask -/

/-- The value `r` is the least multiple of `a` that is at least `x`. -/
def LeastMultipleAtLeast (a x r : Int) : Prop :=
  a ∣ r ∧ x ≤ r ∧ ∀ r', a ∣ r' → x ≤ r' → r ≤ r'

/-- The helper `divUp` rounds the quotient up on the operands where `m + n - 1` is
computed without overflow of `int`. -/
def DivUpContract (divUp : Int → Int → Int) : Prop :=
  ∀ m n : Int, 0 ≤ m → 0 < n → m + n - 1 ≤ 2147483647 → divUp m n = (m + n - 1) / n

/-! ## Example headers and tensors -/

/-- Example headers: alignments 128 and 256, `divUp m n` computed as `(m + n - 1) / n` in
`int`, a device check that reads the descriptor, and a contiguity check that passes. -/
def exampleHeaders : Headers where
  FLASH_ATTEN_PACKED_MASK_M_ALIGNMENT := 128
  FLASH_ATTEN_PACKED_MASK_N_ALIGNMENT := 256
  divUp := fun m n => EaglePlugin.castInt (Int.tdiv (EaglePlugin.castInt (m + n - 1)) n)
  CHECK_CONTIGUOUS := fun _ => .ok ()
  CHECK_TH_CUDA := fun t => TORCH_CHECK (t.device == DeviceType.CUDA) "must be a CUDA tensor"

/-- A mask tensor of 32-bit floats on the device with the sizes given. -/
def exampleMask (sizes : List Int) : Tensor := ⟨sizes, ScalarType.Float, DeviceType.CUDA⟩

/-- A tensor of `n` sequence lengths on the device. -/
def exampleSeqLens (n : Int) : Tensor := ⟨[n], ScalarType.Int, DeviceType.CUDA⟩

end torch_ext

/-! # Proofs -/

namespace EaglePlugin

/-! ## Construction and the creator -/

theorem construct_false (type : DataType) :
    EagleSampleAndAcceptDraftTokensPlugin.construct type false = .error nonGreedyInfo := rfl

theorem construct_true (type : DataType) :
    EagleSampleAndAcceptDraftTokensPlugin.construct type true = .ok ⟨type, true⟩ := rfl

theorem fieldValue_cons (name : String) (f : PluginField) (fs : List PluginField) :
    fieldValue name (f :: fs)
      = (fieldValue name fs).orElse (fun _ => if f.name = name then some f.data else none) := by
  simp only [fieldValue]
  cases fieldValue name fs <;> rfl

/-- On a collection that conforms to the declared fields the loop of `createPlugin` never
throws, and leaves in each local the value of the last field of its name (or the initial
value when there is none). -/
theorem createPluginFields_conforming (fc : List PluginField) :
    ∀ (type : DataType) (greedySampling : Bool), conformsToDeclaredFields fc →
      createPluginFields fc (type, greedySampling)
        = .ok ((fieldValue "type_id" fc).getD type,
            ((fieldValue "greedy_sampling" fc).map (fun v => decide (v ≠ 0))).getD
              greedySampling) := by
  induction fc with
  | nil => intro type greedySampling _; rfl
  | cons f fs ih =>
    intro type greedySampling hc
    have hfs : conformsToDeclaredFields fs := fun g hg hn => hc g (List.mem_cons_of_mem _ hg) hn
    have hf := hc f (List.mem_cons_self _ _)
    by_cases h1 : f.name = "type_id"
    · have h2 : ¬ f.name = "greedy_sampling" := by rw [h1]; decide
      have hty := hf (Or.inl h1)
      rw [createPluginFields, if_pos h1]
      simp only [hty, TLLM_CHECK, beq_self_eq_true, if_true]
      rw [ih _ _ hfs, fieldValue_cons, fieldValue_cons, if_pos h1, if_neg h2]
      cases fieldValue "type_id" fs <;> cases fieldValue "greedy_sampling" fs <;> simp
    · by_cases h2 : f.name = "greedy_sampling"
      · have hty := hf (Or.inr h2)
        rw [createPluginFields, if_neg h1, if_pos h2]
        simp only [hty, TLLM_CHECK, beq_self_eq_true, if_true]
        rw [ih _ _ hfs, fieldValue_cons, fieldValue_cons, if_neg h1, if_pos h2]
        cases fieldValue "type_id" fs <;> cases fieldValue "greedy_sampling" fs <;> simp
      · rw [createPluginFields, if_neg h1, if_neg h2]
        rw [ih _ _ hfs, fieldValue_cons, fieldValue_cons, if_neg h1, if_neg h2]
        cases fieldValue "type_id" fs <;> cases fieldValue "greedy_sampling" fs <;> simp

/-- C1. Constructing the plugin with greedySampling = false fails, for every precision tag,
with the error "Non-greedy sampling is not supported yet." and yields no object; hence
createPlugin on a collection (conforming to the declared fields) whose greedy_sampling
field is 0 returns nullptr, and on one whose greedy_sampling field is not 0 it returns a
plugin whose greedy flag is true. -/
theorem createPlugin_greedy_only (type type0 : DataType) (greedySampling0 : Bool)
    (fc : List PluginField) (v : Word32)
    (hc : conformsToDeclaredFields fc) (hv : fieldValue "greedy_sampling" fc = some v) :
    EagleSampleAndAcceptDraftTokensPlugin.construct type false
        = .error "Non-greedy sampling is not supported yet."
      ∧ (v = 0 → createPlugin type0 greedySampling0 fc = .ok none)
      ∧ (v ≠ 0 → ∃ obj, createPlugin type0 greedySampling0 fc = .ok (some obj)
          ∧ obj.mGreedySampling = true
          ∧ obj.mDtype = (fieldValue "type_id" fc).getD type0) := by
  refine ⟨rfl, ?_, ?_⟩
  · intro h0
    subst h0
    simp [createPlugin, createPluginFields_conforming fc _ _ hc, hv, construct_false]
  · intro hne
    refine ⟨⟨(fieldValue "type_id" fc).getD type0, true⟩, ?_, rfl, rfl⟩
    simp [createPlugin, createPluginFields_conforming fc _ _ hc, hv, hne, construct_true]

theorem createPlugin_greedy_only_witness :
    (EagleSampleAndAcceptDraftTokensPlugin.construct DataType.kHALF false
        = .error "Non-greedy sampling is not supported yet."
      ∧ (createPlugin 7 true
          [⟨"type_id", 1, PluginFieldType.kINT32, 1⟩,
           ⟨"greedy_sampling", 0, PluginFieldType.kINT32, 1⟩] = .ok none))
    ∧ (∃ obj, createPlugin 7 false
          [⟨"type_id", 1, PluginFieldType.kINT32, 1⟩,
           ⟨"greedy_sampling", 1, PluginFieldType.kINT32, 1⟩] = .ok (some obj)
          ∧ obj.mGreedySampling = true ∧ obj.mDtype = DataType.kHALF) := by
  have hc : ∀ g : Word32, conformsToDeclaredFields
      [⟨"type_id", 1, PluginFieldType.kINT32, 1⟩,
       ⟨"greedy_sampling", g, PluginFieldType.kINT32, 1⟩] := by
    intro g f hf _
    simp only [List.mem_cons, List.mem_singleton, List.not_mem_nil, or_false] at hf
    rcases hf with rfl | rfl <;> rfl
  have h0 := createPlugin_greedy_only DataType.kHALF 7 true
    [⟨"type_id", 1, PluginFieldType.kINT32, 1⟩,
     ⟨"greedy_sampling", 0, PluginFieldType.kINT32, 1⟩] 0 (hc 0) (by decide)
  have h1 := createPlugin_greedy_only DataType.kHALF 7 false
    [⟨"type_id", 1, PluginFieldType.kINT32, 1⟩,
     ⟨"greedy_sampling", 1, PluginFieldType.kINT32, 1⟩] 1 (hc 1) (by decide)
  exact ⟨⟨h0.1, h0.2.1 rfl⟩, h1.2.2 (by decide)⟩

/-! ## Serialisation -/

theorem serialize_eq (p : EagleSampleAndAcceptDraftTokensPlugin) :
    p.serialize = bytesOfWord32 p.mDtype ++ bytesOfBool p.mGreedySampling := rfl

theorem readDataType_bytesOfWord32 (v : Word32) (rest : List Byte) :
    readDataType (memoryOf (bytesOfWord32 v ++ rest)) 0 = (v, 4) := by
  have hv := v.isLt
  simp only [readDataType, memoryOf, bytesOfWord32, sizeofDataType, List.cons_append,
    List.getD_cons_zero, List.getD_cons_succ, Prod.mk.injEq, Nat.zero_add, and_true]
  apply Fin.ext
  show v.val % 256 + 256 * (v.val / 256 % 256) + 65536 * (v.val / 65536 % 256)
    + 16777216 * (v.val / 16777216 % 256) = v.val
  omega

theorem readBool_bytesOfBool (v : Word32) (b : Bool) (rest : List Byte) :
    readBool (memoryOf (bytesOfWord32 v ++ bytesOfBool b ++ rest)) 4 = (b, 5) := by
  cases b <;> rfl

theorem deserialize_eq (data : Nat → Byte) (length : Nat) :
    EagleSampleAndAcceptDraftTokensPlugin.deserialize data length
      = if length = 5 then .ok ⟨(readDataType data 0).1, (readBool data 4).1⟩
        else .error (lengthMismatchInfo (castInt (length : Int)) 5) := by
  unfold EagleSampleAndAcceptDraftTokensPlugin.deserialize
  by_cases h : length = 5
  · subst h
    simp [readDataType, readBool, sizeofDataType, sizeofBool, TLLM_CHECK_WITH_INFO]
  · have h5 : ¬ (5 = length) := fun e => h e.symm
    simp [readDataType, readBool, sizeofDataType, sizeofBool, TLLM_CHECK_WITH_INFO, h, h5,
      castInt]

/-- C2. Serialisation round trip: serialize writes exactly getSerializationSize() bytes;
deserialising those bytes (whatever follows them in memory) with that length succeeds and
gives a plugin with the same precision tag and greedy flag, deserializePlugin returns that
plugin, and serialising it again reproduces the identical bytes. -/
theorem serialize_deserialize_roundtrip (p : EagleSampleAndAcceptDraftTokensPlugin)
    (rest : List Byte) :
    p.serialize.length = p.getSerializationSize
      ∧ ∃ q, EagleSampleAndAcceptDraftTokensPlugin.deserialize
            (memoryOf (p.serialize ++ rest)) p.getSerializationSize = .ok q
          ∧ deserializePlugin (memoryOf (p.serialize ++ rest)) p.getSerializationSize = some q
          ∧ q.mDtype = p.mDtype ∧ q.mGreedySampling = p.mGreedySampling
          ∧ q.serialize = p.serialize := by
  obtain ⟨t, g⟩ := p
  have hd : EagleSampleAndAcceptDraftTokensPlugin.deserialize
      (memoryOf ((EagleSampleAndAcceptDraftTokensPlugin.mk t g).serialize ++ rest)) 5
        = .ok ⟨t, g⟩ := by
    rw [deserialize_eq, if_pos rfl, serialize_eq]
    have h1 := readDataType_bytesOfWord32 t (bytesOfBool g ++ rest)
    have h2 := readBool_bytesOfBool t g rest
    rw [List.append_assoc] at h2 ⊢
    rw [h1, h2]
  refine ⟨by cases g <;> rfl, ⟨t, g⟩, hd, ?_, rfl, rfl, rfl⟩
  show deserializePlugin _ 5 = _
  rw [deserializePlugin, hd]

/-- C3 (as stated, at a concrete input). With declared length 2^32 + 5 the constructor
fails, but the message reports the expected length as 5, not the declared length. -/
theorem deserialize_reports_truncated_length :
    EagleSampleAndAcceptDraftTokensPlugin.deserialize (memoryOf []) 4294967301
        = .error ("Expected length (5) != real length (5). This is often caused by using "
            ++ "different TensorRT-LLM version to build engine and run engine.")
      ∧ EagleSampleAndAcceptDraftTokensPlugin.deserialize (memoryOf []) 4294967301
        ≠ .error (lengthMismatchInfo 4294967301 5) := by
  rw [deserialize_eq, if_neg (by decide)]
  simp only [ne_eq, Except.error.injEq]
  decide

/-- C3 (amended). The deserialising constructor succeeds exactly when the declared length
equals the number of bytes it consumes, sizeof(mDtype) + sizeof(mGreedySampling) =
getSerializationSize(); on any other length it throws the error whose message gives the
declared length converted to `int` (the declared length itself when that is below 2^31)
and the consumed length, and deserializePlugin returns nullptr. -/
theorem deserialize_succeeds_iff_length (data : Nat → Byte) (length : Nat)
    (p : EagleSampleAndAcceptDraftTokensPlugin) :
    ((∃ q, EagleSampleAndAcceptDraftTokensPlugin.deserialize data length = .ok q)
        ↔ length = p.getSerializationSize)
      ∧ p.getSerializationSize = sizeofDataType + sizeofBool
      ∧ (length ≠ p.getSerializationSize →
          EagleSampleAndAcceptDraftTokensPlugin.deserialize data length
              = .error (lengthMismatchInfo (castInt (length : Int))
                  ((p.getSerializationSize : Nat) : Int))
            ∧ deserializePlugin data length = none)
      ∧ (length < 2147483648 → castInt (length : Int) = (length : Int)) := by
  have hs : p.getSerializationSize = 5 := rfl
  rw [hs]
  refine ⟨?_, rfl, ?_, ?_⟩
  · rw [deserialize_eq]
    by_cases h : length = 5 <;> simp [h]
  · intro h
    have hd := deserialize_eq data length
    rw [if_neg h] at hd
    exact ⟨hd, by rw [deserializePlugin, hd]⟩
  · intro h
    unfold castInt
    have : ((length : Int) % 4294967296) = (length : Int) := by omega
    simp only [this]
    rw [if_pos (by omega)]

theorem deserialize_succeeds_iff_length_witness :
    EagleSampleAndAcceptDraftTokensPlugin.deserialize (memoryOf [1, 0, 0, 0, 1]) 4
        = .error ("Expected length (4) != real length (5). This is often caused by using "
            ++ "different TensorRT-LLM version to build engine and run engine.")
      ∧ deserializePlugin (memoryOf [1, 0, 0, 0, 1]) 4 = none
      ∧ ∃ q, EagleSampleAndAcceptDraftTokensPlugin.deserialize (memoryOf [1, 0, 0, 0, 1]) 5
          = .ok q :=
  have h := deserialize_succeeds_iff_length (memoryOf [1, 0, 0, 0, 1]) 4 ⟨DataType.kHALF, true⟩
  have h' := deserialize_succeeds_iff_length (memoryOf [1, 0, 0, 0, 1]) 5 ⟨DataType.kHALF, true⟩
  ⟨(h.2.2.1 (by decide)).1, (h.2.2.1 (by decide)).2, h'.1.2 rfl⟩

/-! ## Precision dispatch -/

theorem acceptDraftTokens_error (env : Collaborators) (T : Precision)
    (inputDesc : InputIdxEntry → PluginTensorDesc) (dev : Device) (e : String)
    (h : checkParams (acceptDraftTokensParams env T inputDesc) dev.mem = .error e) :
    acceptDraftTokens env T inputDesc dev
      = (⟨dev.mem, dev.trace ++ [Event.checkParams]⟩, .error e) := by
  simp only [acceptDraftTokens, h]

theorem acceptDraftTokens_ok (env : Collaborators) (T : Precision)
    (inputDesc : InputIdxEntry → PluginTensorDesc) (dev : Device)
    (h : checkParams (acceptDraftTokensParams env T inputDesc) dev.mem = .ok ()) :
    acceptDraftTokens env T inputDesc dev
      = (⟨acceptDraftTokensByIdsWithPaths (acceptDraftTokensParams env T inputDesc) dev.mem,
          dev.trace ++ [Event.checkParams, Event.acceptDraftTokensByIdsWithPaths T]⟩,
        .ok ()) := by
  simp only [acceptDraftTokens, h]

theorem samplePrimeHeadTokens_trace (env : Collaborators) (T : Precision)
    (inputDesc : InputIdxEntry → PluginTensorDesc) (dev : Device) :
    (samplePrimeHeadTokens env T inputDesc dev).trace
      = dev.trace ++ [Event.assembleTargetLogitsOffsets T, Event.batchTopKSampling T] := rfl

/-- The three ways `enqueueType<T>` can end: the non-greedy check throws before anything is
launched; the walker's validation throws after the sampler; or all stages run. -/
theorem enqueueType_cases (self : EagleSampleAndAcceptDraftTokensPlugin) (env : Collaborators)
    (T : Precision) (inputDesc : InputIdxEntry → PluginTensorDesc)
    (outputDesc : OutputIdxEntry → PluginTensorDesc) (dev : Device) :
    (self.mGreedySampling = false
        ∧ self.enqueueType env T inputDesc outputDesc dev = (dev, .error nonGreedyEnqueueInfo))
      ∨ (self.mGreedySampling = true
        ∧ ∃ e, checkParams (acceptDraftTokensParams env T inputDesc)
              (samplePrimeHeadTokens env T inputDesc dev).mem = .error e
          ∧ self.enqueueType env T inputDesc outputDesc dev
            = (⟨(samplePrimeHeadTokens env T inputDesc dev).mem,
                dev.trace ++ [Event.assembleTargetLogitsOffsets T, Event.batchTopKSampling T,
                  Event.checkParams]⟩, .error e))
      ∨ (self.mGreedySampling = true
        ∧ checkParams (acceptDraftTokensParams env T inputDesc)
              (samplePrimeHeadTokens env T inputDesc dev).mem = .ok ()
        ∧ self.enqueueType env T inputDesc outputDesc dev
          = (selectLastAccTokenAndComputeIndicesCumSum inputDesc
              ⟨acceptDraftTokensByIdsWithPaths (acceptDraftTokensParams env T inputDesc)
                (samplePrimeHeadTokens env T inputDesc dev).mem,
               dev.trace ++ [Event.assembleTargetLogitsOffsets T, Event.batchTopKSampling T,
                  Event.checkParams, Event.acceptDraftTokensByIdsWithPaths T]⟩, .ok ())) := by
  cases hg : self.mGreedySampling with
  | false =>
    left
    refine ⟨rfl, ?_⟩
    simp [EagleSampleAndAcceptDraftTokensPlugin.enqueueType, hg, TLLM_CHECK_WITH_INFO]
  | true =>
    right
    cases hc : checkParams (acceptDraftTokensParams env T inputDesc)
        (samplePrimeHeadTokens env T inputDesc dev).mem with
    | error e =>
      left
      refine ⟨rfl, e, rfl, ?_⟩
      simp [EagleSampleAndAcceptDraftTokensPlugin.enqueueType, hg, doGreedy,
        acceptDraftTokens_error _ _ _ _ e hc, samplePrimeHeadTokens_trace]
    | ok u =>
      right
      cases u
      refine ⟨rfl, rfl, ?_⟩
      simp [EagleSampleAndAcceptDraftTokensPlugin.enqueueType, hg, doGreedy,
        acceptDraftTokens_ok _ _ _ _ hc, samplePrimeHeadTokens_trace]

/-- On a supported logits type `enqueue` is `enqueueType<T>` followed by `return 0`. -/
theorem enqueue_supported (self : EagleSampleAndAcceptDraftTokensPlugin)
    (env : Collaborators) (inputDesc : InputIdxEntry → PluginTensorDesc)
    (outputDesc : OutputIdxEntry → PluginTensorDesc) (dev : Device) (T : Precision)
    (hT : (inputDesc InputIdxEntry.LOGITS).type = T.dataType) :
    (self.enqueue env inputDesc outputDesc dev).1
        = (self.enqueueType env T inputDesc outputDesc dev).1
      ∧ (self.enqueue env inputDesc outputDesc dev).2
        = (self.enqueueType env T inputDesc outputDesc dev).2.map (fun _ => (0 : Int)) := by
  have hne : DataType.kHALF ≠ DataType.kFLOAT := by decide
  cases T with
  | float =>
    have hT' : (inputDesc InputIdxEntry.LOGITS).type = DataType.kFLOAT := hT
    simp only [EagleSampleAndAcceptDraftTokensPlugin.enqueue, hT', if_true]
    rcases h : self.enqueueType env Precision.float inputDesc outputDesc dev with ⟨d, r⟩
    cases r with
    | error e => exact ⟨rfl, rfl⟩
    | ok u => cases u; exact ⟨rfl, rfl⟩
  | half =>
    have hT' : (inputDesc InputIdxEntry.LOGITS).type = DataType.kHALF := hT
    simp only [EagleSampleAndAcceptDraftTokensPlugin.enqueue, hT', if_neg hne, if_true]
    rcases h : self.enqueueType env Precision.half inputDesc outputDesc dev with ⟨d, r⟩
    cases r with
    | error e => exact ⟨rfl, rfl⟩
    | ok u => cases u; exact ⟨rfl, rfl⟩

/-- On any other logits type `enqueue` throws with the device as it was. -/
theorem enqueue_unsupported (self : EagleSampleAndAcceptDraftTokensPlugin)
    (env : Collaborators) (inputDesc : InputIdxEntry → PluginTensorDesc)
    (outputDesc : OutputIdxEntry → PluginTensorDesc) (dev : Device)
    (h1 : (inputDesc InputIdxEntry.LOGITS).type ≠ DataType.kFLOAT)
    (h2 : (inputDesc InputIdxEntry.LOGITS).type ≠ DataType.kHALF) :
    self.enqueue env inputDesc outputDesc dev = (dev, .error unsupportedLogitsInfo) := by
  simp [EagleSampleAndAcceptDraftTokensPlugin.enqueue, h1, h2, TLLM_CHECK_WITH_INFO]

/-- Every kernel `enqueueType<T>` launches is the instance for `T`. -/
theorem enqueueType_trace_precision (self : EagleSampleAndAcceptDraftTokensPlugin)
    (env : Collaborators) (inputDesc : InputIdxEntry → PluginTensorDesc)
    (outputDesc : OutputIdxEntry → PluginTensorDesc) (dev : Device) (T : Precision) :
    ∀ ev ∈ (self.enqueueType env T inputDesc outputDesc dev).1.trace,
      ev ∈ dev.trace ∨ ev.precision = none ∨ ev.precision = some T := by
  intro ev hev
  rcases enqueueType_cases self env T inputDesc outputDesc dev with
    ⟨_, h⟩ | ⟨_, e, _, h⟩ | ⟨_, _, h⟩
  · rw [h] at hev
    exact Or.inl hev
  · rw [h] at hev
    simp only [List.mem_append, List.mem_cons, List.mem_singleton, List.not_mem_nil,
      or_false] at hev
    rcases hev with hev | rfl | rfl | rfl
    · exact Or.inl hev
    · exact Or.inr (Or.inr rfl)
    · exact Or.inr (Or.inr rfl)
    · exact Or.inr (Or.inl rfl)
  · rw [h] at hev
    simp only [selectLastAccTokenAndComputeIndicesCumSum, List.mem_append, List.mem_cons,
      List.mem_singleton, List.not_mem_nil, or_false] at hev
    rcases hev with (hev | rfl | rfl | rfl | rfl) | rfl
    · exact Or.inl hev
    · exact Or.inr (Or.inr rfl)
    · exact Or.inr (Or.inr rfl)
    · exact Or.inr (Or.inl rfl)
    · exact Or.inr (Or.inr rfl)
    · exact Or.inr (Or.inl rfl)

theorem getWorkspaceSize_supported (self : EagleSampleAndAcceptDraftTokensPlugin)
    (env : Collaborators) (T : Precision) (inputs : InputIdxEntry → PluginTensorDesc)
    (nbInputs : Int) (outputs : OutputIdxEntry → PluginTensorDesc) (nbOutputs : Int)
    (hT : (inputs InputIdxEntry.LOGITS).type = T.dataType) :
    self.getWorkspaceSize env inputs nbInputs outputs nbOutputs
      = .ok (self.getWorkspaceSizeType env T inputs nbInputs outputs nbOutputs) := by
  have hne : DataType.kHALF ≠ DataType.kFLOAT := by decide
  cases T with
  | float =>
    have hT' : (inputs InputIdxEntry.LOGITS).type = DataType.kFLOAT := hT
    simp only [EagleSampleAndAcceptDraftTokensPlugin.getWorkspaceSize, hT', if_true]
  | half =>
    have hT' : (inputs InputIdxEntry.LOGITS).type = DataType.kHALF := hT
    simp only [EagleSampleAndAcceptDraftTokensPlugin.getWorkspaceSize, hT', if_neg hne, if_true]

theorem getWorkspaceSize_unsupported (self : EagleSampleAndAcceptDraftTokensPlugin)
    (env : Collaborators) (inputs : InputIdxEntry → PluginTensorDesc)
    (nbInputs : Int) (outputs : OutputIdxEntry → PluginTensorDesc) (nbOutputs : Int)
    (h1 : (inputs InputIdxEntry.LOGITS).type ≠ DataType.kFLOAT)
    (h2 : (inputs InputIdxEntry.LOGITS).type ≠ DataType.kHALF) :
    self.getWorkspaceSize env inputs nbInputs outputs nbOutputs
      = .error unsupportedLogitsInfo := by
  simp [EagleSampleAndAcceptDraftTokensPlugin.getWorkspaceSize, h1, h2, TLLM_CHECK_WITH_INFO]

/-- C4. Precision dispatch: enqueue looks at the declared type of the logits input only.
For kFLOAT it runs enqueueType<float>, for kHALF it runs enqueueType<__half> (every
kernel launched by enqueueType<T> is the instance for T), and for every other type it
throws "Unsupported logits type" with the device untouched: nothing is launched and no
memory is written.  getWorkspaceSize dispatches on the same two types and throws on every
other one. -/
theorem enqueue_dispatches_on_logits_type (self : EagleSampleAndAcceptDraftTokensPlugin)
    (env : Collaborators) (inputDesc : InputIdxEntry → PluginTensorDesc)
    (outputDesc : OutputIdxEntry → PluginTensorDesc) (dev : Device)
    (nbInputs nbOutputs : Int) :
    (∀ T : Precision, (inputDesc InputIdxEntry.LOGITS).type = T.dataType →
        (self.enqueue env inputDesc outputDesc dev).1
            = (self.enqueueType env T inputDesc outputDesc dev).1
          ∧ (self.enqueue env inputDesc outputDesc dev).2
            = (self.enqueueType env T inputDesc outputDesc dev).2.map (fun _ => (0 : Int))
          ∧ self.getWorkspaceSize env inputDesc nbInputs outputDesc nbOutputs
            = .ok (self.getWorkspaceSizeType env T inputDesc nbInputs outputDesc nbOutputs))
      ∧ (∀ T : Precision, ∀ ev ∈ (self.enqueueType env T inputDesc outputDesc dev).1.trace,
          ev ∈ dev.trace ∨ ev.precision = none ∨ ev.precision = some T)
      ∧ ((inputDesc InputIdxEntry.LOGITS).type ≠ DataType.kFLOAT →
          (inputDesc InputIdxEntry.LOGITS).type ≠ DataType.kHALF →
          (self.enqueue env inputDesc outputDesc dev).1.mem = dev.mem
            ∧ (self.enqueue env inputDesc outputDesc dev).1.trace = dev.trace
            ∧ (self.enqueue env inputDesc outputDesc dev).2 = .error "Unsupported logits type"
            ∧ self.getWorkspaceSize env inputDesc nbInputs outputDesc nbOutputs
              = .error "Unsupported logits type") := by
  refine ⟨?_, ?_, ?_⟩
  · intro T hT
    have h := enqueue_supported self env inputDesc outputDesc dev T hT
    exact ⟨h.1, h.2,
      getWorkspaceSize_supported self env T inputDesc nbInputs outputDesc nbOutputs hT⟩
  · intro T
    exact enqueueType_trace_precision self env inputDesc outputDesc dev T
  · intro h1 h2
    rw [enqueue_unsupported self env inputDesc outputDesc dev h1 h2,
      getWorkspaceSize_unsupported self env inputDesc nbInputs outputDesc nbOutputs h1 h2]
    exact ⟨rfl, rfl, rfl, rfl⟩

theorem enqueue_dispatches_on_logits_type_witness :
    ((EagleSampleAndAcceptDraftTokensPlugin.mk DataType.kFLOAT true).enqueue exampleEnv
          (exampleInputDesc DataType.kHALF 1) (exampleOutputDesc 1) scenarioA).1
        = ((EagleSampleAndAcceptDraftTokensPlugin.mk DataType.kFLOAT true).enqueueType
            exampleEnv Precision.half (exampleInputDesc DataType.kHALF 1) (exampleOutputDesc 1)
            scenarioA).1
      ∧ ((EagleSampleAndAcceptDraftTokensPlugin.mk DataType.kFLOAT true).enqueue exampleEnv
          (exampleInputDesc DataType.kINT8 1) (exampleOutputDesc 1) scenarioA).1.trace = []
      ∧ ((EagleSampleAndAcceptDraftTokensPlugin.mk DataType.kFLOAT true).enqueue exampleEnv
          (exampleInputDesc DataType.kINT8 1) (exampleOutputDesc 1) scenarioA).2
        = .error "Unsupported logits type" := by
  have h := enqueue_dispatches_on_logits_type
    (EagleSampleAndAcceptDraftTokensPlugin.mk DataType.kFLOAT true) exampleEnv
    (exampleInputDesc DataType.kHALF 1) (exampleOutputDesc 1) scenarioA 6 7
  have h' := enqueue_dispatches_on_logits_type
    (EagleSampleAndAcceptDraftTokensPlugin.mk DataType.kFLOAT true) exampleEnv
    (exampleInputDesc DataType.kINT8 1) (exampleOutputDesc 1) scenarioA 6 7
  have h8 := h'.2.2 (by decide) (by decide)
  exact ⟨(h.1 Precision.half rfl).1, h8.2.1, h8.2.2.1⟩

/-! ## Output shapes -/

/-- C5 (as stated, at a concrete input). With draft tokens of shape [2, 3] and paths of
shape [2, 4, 5], output 5 (nextDraftTokens) has shape [2, 3]: its second dimension is the
one of the draft tokens input, not maxDecodingTokens = 4 of the paths input. -/
theorem getOutputDimensions_nextDraftTokens_not_from_paths :
    ReturnsShape (getOutputDimensions 5 exampleShapes 6 (dimsOf [])) [2, 3]
      ∧ ¬ ReturnsShape (getOutputDimensions 5 exampleShapes 6 (dimsOf []))
          [(exampleShapes InputIdxEntry.PATHS).d 0, (exampleShapes InputIdxEntry.PATHS).d 1] := by
  constructor
  · refine ⟨_, rfl, rfl, ?_⟩
    intro i hi
    have hi2 : i < 2 := hi
    interval_cases i <;> rfl
  · rintro ⟨x, hx, _, hd⟩
    have h1 := hd 1 (by decide)
    have hx' : x = ⟨2, Function.update (Function.update (dimsOf []).d 0
        ((exampleShapes InputIdxEntry.PATHS).d 0)) 1
        ((exampleShapes InputIdxEntry.DRAFT_TOKEN_IDS).d 1)⟩ := by
      have : getOutputDimensions 5 exampleShapes 6 (dimsOf [])
          = .ok ⟨2, Function.update (Function.update (dimsOf []).d 0
              ((exampleShapes InputIdxEntry.PATHS).d 0)) 1
              ((exampleShapes InputIdxEntry.DRAFT_TOKEN_IDS).d 1)⟩ := rfl
      rw [this] at hx
      exact (Except.ok.inj hx).symm
    subst hx'
    revert h1
    decide

theorem getOutputDimensions_eq {E : Type} (outputIndex : Int)
    (inputs : InputIdxEntry → DimsExprs E) (ret0 : DimsExprs E) (h : outputIndex < 7) :
    getOutputDimensions outputIndex inputs 6 ret0
      = if outputIndex = 0 then
          .ok ⟨2, Function.update (Function.update ret0.d 0 ((inputs InputIdxEntry.PATHS).d 0))
            1 ((inputs InputIdxEntry.PATHS).d 2)⟩
        else if outputIndex = 5 then
          .ok ⟨2, Function.update (Function.update ret0.d 0 ((inputs InputIdxEntry.PATHS).d 0))
            1 ((inputs InputIdxEntry.DRAFT_TOKEN_IDS).d 1)⟩
        else if 1 ≤ outputIndex ∧ outputIndex ≤ 6 then
          .ok ⟨1, Function.update ret0.d 0 ((inputs InputIdxEntry.PATHS).d 0)⟩
        else .ok ret0 := by
  simp only [getOutputDimensions, TLLM_CHECK, beq_self_eq_true, if_true, h, decide_True]
  by_cases h0 : outputIndex = 0
  · simp [h0]
  by_cases h1 : outputIndex = 1
  · simp [h1]
  by_cases h2 : outputIndex = 2
  · simp [h2]
  by_cases h3 : outputIndex = 3
  · simp [h3]
  by_cases h4 : outputIndex = 4
  · simp [h4]
  by_cases h5 : outputIndex = 5
  · simp [h5]
  by_cases h6 : outputIndex = 6
  · simp [h6]
  have hno : ¬ (1 ≤ outputIndex ∧ outputIndex ≤ 6) := by omega
  simp [h0, h1, h2, h3, h4, h5, h6, hno]

theorem returnsShape_two {E : Type} (d : Nat → E) (a b : E) :
    ReturnsShape (.ok ⟨2, Function.update (Function.update d 0 a) 1 b⟩) [a, b] := by
  refine ⟨_, rfl, rfl, ?_⟩
  intro i hi
  have hi2 : i < 2 := hi
  interval_cases i
  · simp [Function.update]
  · simp [Function.update]

theorem returnsShape_one {E : Type} (d : Nat → E) (a : E) :
    ReturnsShape (.ok ⟨1, Function.update d 0 a⟩) [a] := by
  refine ⟨_, rfl, rfl, ?_⟩
  intro i hi
  have hi1 : i < 1 := hi
  interval_cases i
  simp [Function.update]

/-- C5 (amended). For nbInputs = 6, getOutputDimensions returns acceptedTokens =
[batch, maxPathLen], numAcceptedTokens, acceptedPathId, lastAcceptedTokenId,
exclusiveSumAcceptedIndices and nextDraftLens = [batch], and nextDraftTokens =
[batch, d] where batch and maxPathLen are dimensions 0 and 2 of the paths input and d is
dimension 1 of the draft-token-ids input (not dimension 1 of the paths input).  A wrong
input count (nbInputs != 6) or outputIndex >= 7 is a fatal error. -/
theorem getOutputDimensions_shapes {E : Type} (inputs : InputIdxEntry → DimsExprs E)
    (ret0 : DimsExprs E) (outputIndex nbInputs : Int) :
    ReturnsShape (getOutputDimensions 0 inputs 6 ret0)
        [(inputs InputIdxEntry.PATHS).d 0, (inputs InputIdxEntry.PATHS).d 2]
      ∧ ReturnsShape (getOutputDimensions 1 inputs 6 ret0) [(inputs InputIdxEntry.PATHS).d 0]
      ∧ ReturnsShape (getOutputDimensions 2 inputs 6 ret0) [(inputs InputIdxEntry.PATHS).d 0]
      ∧ ReturnsShape (getOutputDimensions 3 inputs 6 ret0) [(inputs InputIdxEntry.PATHS).d 0]
      ∧ ReturnsShape (getOutputDimensions 4 inputs 6 ret0) [(inputs InputIdxEntry.PATHS).d 0]
      ∧ ReturnsShape (getOutputDimensions 5 inputs 6 ret0)
        [(inputs InputIdxEntry.PATHS).d 0, (inputs InputIdxEntry.DRAFT_TOKEN_IDS).d 1]
      ∧ ReturnsShape (getOutputDimensions 6 inputs 6 ret0) [(inputs InputIdxEntry.PATHS).d 0]
      ∧ (nbInputs ≠ 6 → Fatal (getOutputDimensions outputIndex inputs nbInputs ret0))
      ∧ (7 ≤ outputIndex → Fatal (getOutputDimensions outputIndex inputs nbInputs ret0)) := by
  refine ⟨?_, ?_, ?_, ?_, ?_, ?_, ?_, ?_, ?_⟩
  · rw [getOutputDimensions_eq 0 inputs ret0 (by decide), if_pos rfl]
    exact returnsShape_two _ _ _
  · rw [getOutputDimensions_eq 1 inputs ret0 (by decide), if_neg (by decide),
      if_neg (by decide), if_pos (by decide)]
    exact returnsShape_one _ _
  · rw [getOutputDimensions_eq 2 inputs ret0 (by decide), if_neg (by decide),
      if_neg (by decide), if_pos (by decide)]
    exact returnsShape_one _ _
  · rw [getOutputDimensions_eq 3 inputs ret0 (by decide), if_neg (by decide),
      if_neg (by decide), if_pos (by decide)]
    exact returnsShape_one _ _
  · rw [getOutputDimensions_eq 4 inputs ret0 (by decide), if_neg (by decide),
      if_neg (by decide), if_pos (by decide)]
    exact returnsShape_one _ _
  · rw [getOutputDimensions_eq 5 inputs ret0 (by decide), if_neg (by decide), if_pos rfl]
    exact returnsShape_two _ _ _
  · rw [getOutputDimensions_eq 6 inputs ret0 (by decide), if_neg (by decide),
      if_neg (by decide), if_pos (by decide)]
    exact returnsShape_one _ _
  · intro h
    refine ⟨"Assertion failed: nbInputs == 6", ?_⟩
    have hb : (nbInputs == 6) = false := by simpa using h
    simp [getOutputDimensions, TLLM_CHECK, hb]
  · intro h
    have hlt : ¬ outputIndex < 7 := by omega
    by_cases hn : nbInputs = 6
    · refine ⟨"Assertion failed: outputIndex < 7", ?_⟩
      subst hn
      simp [getOutputDimensions, TLLM_CHECK, hlt]
    · refine ⟨"Assertion failed: nbInputs == 6", ?_⟩
      have hb : (nbInputs == 6) = false := by simpa using hn
      simp [getOutputDimensions, TLLM_CHECK, hb]

theorem getOutputDimensions_shapes_witness :
    Fatal (getOutputDimensions 0 exampleShapes 5 (dimsOf []))
      ∧ Fatal (getOutputDimensions 7 exampleShapes 6 (dimsOf []))
      ∧ ReturnsShape (getOutputDimensions 0 exampleShapes 6 (dimsOf [])) [2, 5] :=
  have h := getOutputDimensions_shapes exampleShapes (dimsOf []) 7 6
  have h' := getOutputDimensions_shapes exampleShapes (dimsOf []) 0 5
  ⟨h'.2.2.2.2.2.2.2.1 (by decide), h.2.2.2.2.2.2.2.2 (by decide), h.1⟩

/-! ## Workspace -/

/-- C7. Workspace sizing is a function of the logits precision, the vocabulary dimension
of the logits and the dimensions batchSize and maxDecodingTokens of the paths only: two
calls that agree on these return the same result, whatever the plugin configuration, the
remaining descriptor contents, the output descriptors and the counts are. -/
theorem getWorkspaceSize_depends_on_shapes_and_precision_only
    (self other : EagleSampleAndAcceptDraftTokensPlugin) (env : Collaborators)
    (inputs inputs' : InputIdxEntry → PluginTensorDesc) (nbInputs nbInputs' : Int)
    (outputs outputs' : OutputIdxEntry → PluginTensorDesc) (nbOutputs nbOutputs' : Int)
    (htype : (inputs InputIdxEntry.LOGITS).type = (inputs' InputIdxEntry.LOGITS).type)
    (hvocab : (inputs InputIdxEntry.LOGITS).dims.d 1 = (inputs' InputIdxEntry.LOGITS).dims.d 1)
    (hbatch : (inputs InputIdxEntry.PATHS).dims.d 0 = (inputs' InputIdxEntry.PATHS).dims.d 0)
    (htokens : (inputs InputIdxEntry.PATHS).dims.d 1 = (inputs' InputIdxEntry.PATHS).dims.d 1) :
    self.getWorkspaceSize env inputs nbInputs outputs nbOutputs
      = other.getWorkspaceSize env inputs' nbInputs' outputs' nbOutputs' := by
  simp only [EagleSampleAndAcceptDraftTokensPlugin.getWorkspaceSize,
    EagleSampleAndAcceptDraftTokensPlugin.getWorkspaceSizeType, htype, hvocab, hbatch, htokens]

theorem getWorkspaceSize_depends_on_shapes_and_precision_only_witness :
    (EagleSampleAndAcceptDraftTokensPlugin.mk DataType.kFLOAT true).getWorkspaceSize exampleEnv
        (exampleInputDesc DataType.kHALF 2) 6 (exampleOutputDesc 2) 7
      = (EagleSampleAndAcceptDraftTokensPlugin.mk DataType.kINT8 false).getWorkspaceSize
          exampleEnv
          (fun e => match e with
            | .LOGITS => ⟨dimsOf [100, 3], DataType.kHALF, TensorFormat.kCHW2⟩
            | .PATHS => ⟨dimsOf [2, 4, 9, 1], DataType.kFLOAT, TensorFormat.kLINEAR⟩
            | _ => ⟨dimsOf [], DataType.kINT8, TensorFormat.kCHW32⟩)
          0 (exampleOutputDesc 5) 3 :=
  getWorkspaceSize_depends_on_shapes_and_precision_only _ _ exampleEnv _ _ 6 0 _ _ 7 3
    rfl rfl rfl rfl

/-! ## A successful step -/

theorem readAt_natCast (xs : List Int) (i : Nat) : readAt xs (i : Int) = xs.getD i 0 := by
  have h : ¬ ((i : Int) < 0) := by omega
  simp [readAt, h]

theorem readAt_map_range (f : Nat → Int) (n i : Nat) (h : i < n) :
    readAt ((List.range n).map f) (i : Int) = f i := by
  rw [readAt_natCast]
  simp [List.getD_eq_getElem?_getD, h]

/-- What a step that returns has done: the plugin is greedy, the logits type selects an
instance `T`, the walker's validation passed on the memory the sampler left, and the
device is the one post-processing leaves after the walker. -/
theorem enqueue_ok (self : EagleSampleAndAcceptDraftTokensPlugin) (env : Collaborators)
    (inputDesc : InputIdxEntry → PluginTensorDesc)
    (outputDesc : OutputIdxEntry → PluginTensorDesc) (dev : Device) (r : Int)
    (h : (self.enqueue env inputDesc outputDesc dev).2 = .ok r) :
    r = 0 ∧ self.mGreedySampling = true
      ∧ ∃ T : Precision, (inputDesc InputIdxEntry.LOGITS).type = T.dataType
        ∧ checkParams (acceptDraftTokensParams env T inputDesc)
            (samplePrimeHeadTokens env T inputDesc dev).mem = .ok ()
        ∧ (self.enqueue env inputDesc outputDesc dev).1
          = selectLastAccTokenAndComputeIndicesCumSum inputDesc
              ⟨acceptDraftTokensByIdsWithPaths (acceptDraftTokensParams env T inputDesc)
                (samplePrimeHeadTokens env T inputDesc dev).mem,
               dev.trace ++ [Event.assembleTargetLogitsOffsets T, Event.batchTopKSampling T,
                  Event.checkParams, Event.acceptDraftTokensByIdsWithPaths T]⟩ := by
  have key : ∀ T : Precision,
      (self.enqueue env inputDesc outputDesc dev).1
          = (self.enqueueType env T inputDesc outputDesc dev).1 →
      (self.enqueue env inputDesc outputDesc dev).2
          = (self.enqueueType env T inputDesc outputDesc dev).2.map (fun _ => (0 : Int)) →
      (inputDesc InputIdxEntry.LOGITS).type = T.dataType →
      r = 0 ∧ self.mGreedySampling = true
      ∧ ∃ T : Precision, (inputDesc InputIdxEntry.LOGITS).type = T.dataType
        ∧ checkParams (acceptDraftTokensParams env T inputDesc)
            (samplePrimeHeadTokens env T inputDesc dev).mem = .ok ()
        ∧ (self.enqueue env inputDesc outputDesc dev).1
          = selectLastAccTokenAndComputeIndicesCumSum inputDesc
              ⟨acceptDraftTokensByIdsWithPaths (acceptDraftTokensParams env T inputDesc)
                (samplePrimeHeadTokens env T inputDesc dev).mem,
               dev.trace ++ [Event.assembleTargetLogitsOffsets T, Event.batchTopKSampling T,
                  Event.checkParams, Event.acceptDraftTokensByIdsWithPaths T]⟩ := by
    intro T h1 h2 hT
    rw [h2] at h
    rcases enqueueType_cases self env T inputDesc outputDesc dev with
      ⟨_, e⟩ | ⟨_, e, _, e'⟩ | ⟨hg, hc, e⟩
    · rw [e] at h; simp [Except.map] at h
    · rw [e'] at h; simp [Except.map] at h
    · rw [e] at h h1
      simp only [Except.map, Except.ok.injEq] at h
      exact ⟨h.symm, hg, T, hT, hc, h1⟩
  by_cases hf : (inputDesc InputIdxEntry.LOGITS).type = DataType.kFLOAT
  · have := enqueue_supported self env inputDesc outputDesc dev Precision.float hf
    exact key Precision.float this.1 this.2 hf
  · by_cases hh : (inputDesc InputIdxEntry.LOGITS).type = DataType.kHALF
    · have := enqueue_supported self env inputDesc outputDesc dev Precision.half hh
      exact key Precision.half this.1 this.2 hh
    · rw [enqueue_unsupported self env inputDesc outputDesc dev hf hh] at h
      cases h

/-- The facts the walker's validation establishes. -/
theorem checkParams_ok (params : AcceptDraftTokensByIdsWithPathsParams) (mem : Memory)
    (h : checkParams params mem = .ok ()) :
    0 ≤ params.batchSize ∧ 0 < params.vocabSize ∧ 0 < params.maxDecodingTokens
      ∧ 0 ≤ params.maxDraftPathLen ∧ params.maxDraftPathLen < params.maxSeqLen := by
  unfold checkParams TLLM_CHECK at h
  by_cases h1 : 0 ≤ params.batchSize ∧ params.batchSize ≤ params.maxBatchSize
  · by_cases h2 : 0 < params.vocabSize
    · by_cases h3 : 0 < params.maxDecodingTokens
      · by_cases h4 : 0 ≤ params.maxDraftPathLen ∧ params.maxDraftPathLen < params.maxSeqLen
        · exact ⟨h1.1, h2, h3, h4.1, h4.2⟩
        · simp [h1, h2, h3, h4] at h
      · simp [h1, h2, h3] at h
    · simp [h1, h2] at h
  · simp [h1] at h

/-- The sampler writes to the workspace only. -/
theorem samplePrimeHeadTokens_mem_input (env : Collaborators) (T : Precision)
    (inputDesc : InputIdxEntry → PluginTensorDesc) (dev : Device) (e : InputIdxEntry) :
    (samplePrimeHeadTokens env T inputDesc dev).mem (Ptr.input e) = dev.mem (Ptr.input e) := by
  simp [samplePrimeHeadTokens, samplePrimeHeadTokensParams, samplePrimeHeadTokensWorkspace,
    nextWorkspacePtr, Function.update]

/-- The walker reads the base-model tokens where the sampler wrote them. -/
theorem acceptDraftTokens_reads_sampled (env : Collaborators) (T : Precision)
    (inputDesc : InputIdxEntry → PluginTensorDesc) (dev : Device) :
    (samplePrimeHeadTokens env T inputDesc dev).mem
        (acceptDraftTokensParams env T inputDesc).targetIds
      = sampledTokenIds env T inputDesc dev := rfl

/-- The memory after a successful step, output by output. -/
theorem enqueue_ok_outputs (self : EagleSampleAndAcceptDraftTokensPlugin) (env : Collaborators)
    (inputDesc : InputIdxEntry → PluginTensorDesc)
    (outputDesc : OutputIdxEntry → PluginTensorDesc) (dev : Device) (r : Int)
    (h : (self.enqueue env inputDesc outputDesc dev).2 = .ok r) :
    ∃ T : Precision, (inputDesc InputIdxEntry.LOGITS).type = T.dataType
      ∧ 0 ≤ (inputDesc InputIdxEntry.PATHS).dims.d 0
      ∧ 0 < (inputDesc InputIdxEntry.PATHS).dims.d 1
      ∧ 0 < (inputDesc InputIdxEntry.PATHS).dims.d 2
      ∧ (self.enqueue env inputDesc outputDesc dev).1.mem
            (Ptr.output OutputIdxEntry.ACCEPTED_LEN)
          = (List.range ((inputDesc InputIdxEntry.PATHS).dims.d 0).toNat).map (fun b =>
              (((acceptElement (dev.mem (Ptr.input InputIdxEntry.PATHS))
                (dev.mem (Ptr.input InputIdxEntry.DRAFT_TOKEN_IDS))
                (sampledTokenIds env T inputDesc dev)
                ((inputDesc InputIdxEntry.PATHS).dims.d 1)
                ((inputDesc InputIdxEntry.PATHS).dims.d 2)
                ((inputDesc InputIdxEntry.PATHS).dims.d 2 - 1) b).1 : Nat) : Int))
      ∧ (self.enqueue env inputDesc outputDesc dev).1.mem
            (Ptr.output OutputIdxEntry.BEST_ACCEPTED_PATHS)
          = (List.range ((inputDesc InputIdxEntry.PATHS).dims.d 0).toNat).map (fun b =>
              (((acceptElement (dev.mem (Ptr.input InputIdxEntry.PATHS))
                (dev.mem (Ptr.input InputIdxEntry.DRAFT_TOKEN_IDS))
                (sampledTokenIds env T inputDesc dev)
                ((inputDesc InputIdxEntry.PATHS).dims.d 1)
                ((inputDesc InputIdxEntry.PATHS).dims.d 2)
                ((inputDesc InputIdxEntry.PATHS).dims.d 2 - 1) b).2 : Nat) : Int))
      ∧ (self.enqueue env inputDesc outputDesc dev).1.mem
            (Ptr.output OutputIdxEntry.EXCLUSIVE_SUM_LAST_TOKEN_INDICES)
          = exclusiveSumFrom 0
              ((List.range ((inputDesc InputIdxEntry.PATHS).dims.d 0).toNat).map
                (fun (b : Nat) =>
                readAt ((self.enqueue env inputDesc outputDesc dev).1.mem
                  (Ptr.output OutputIdxEntry.ACCEPTED_LEN)) (b : Int))) := by
  obtain ⟨_, _, T, hT, hc, hdev⟩ := enqueue_ok self env inputDesc outputDesc dev r h
  have hp := checkParams_ok _ _ hc
  have hB : 0 ≤ (inputDesc InputIdxEntry.PATHS).dims.d 0 := hp.1
  have hM : 0 < (inputDesc InputIdxEntry.PATHS).dims.d 1 := hp.2.2.1
  have hD : 0 ≤ (inputDesc InputIdxEntry.PATHS).dims.d 2 - 1 := hp.2.2.2.1
  refine ⟨T, hT, hB, hM, by omega, ?_, ?_, ?_⟩
  · rw [hdev]
    simp only [selectLastAccTokenAndComputeIndicesCumSum,
      invokeSelectLastAccTokenAndComputeIndicesCumSum, acceptDraftTokensByIdsWithPaths]
    simp only [Function.update, acceptDraftTokensParams, samplePrimeHeadTokens_mem_input]
    simp
    intro b _
    rfl
  · rw [hdev]
    simp only [selectLastAccTokenAndComputeIndicesCumSum,
      invokeSelectLastAccTokenAndComputeIndicesCumSum, acceptDraftTokensByIdsWithPaths]
    simp only [Function.update, acceptDraftTokensParams, samplePrimeHeadTokens_mem_input]
    simp
    intro b _
    rfl
  · rw [hdev]
    simp only [selectLastAccTokenAndComputeIndicesCumSum,
      invokeSelectLastAccTokenAndComputeIndicesCumSum]
    simp [Function.update]

/-! ## Post-processing: the exclusive prefix sum -/

theorem exclusiveSumFrom_length (xs : List Int) :
    ∀ acc : Int, (exclusiveSumFrom acc xs).length = xs.length := by
  induction xs with
  | nil => intro acc; rfl
  | cons x rest ih => intro acc; simp [exclusiveSumFrom, ih]

theorem exclusiveSumFrom_getD_zero (xs : List Int) (acc : Int) (h : 0 < xs.length) :
    (exclusiveSumFrom acc xs).getD 0 0 = acc := by
  cases xs with
  | nil => simp at h
  | cons x rest => simp [exclusiveSumFrom]

theorem exclusiveSumFrom_getD_succ (xs : List Int) :
    ∀ (acc : Int) (i : Nat), i + 1 < xs.length →
      (exclusiveSumFrom acc xs).getD (i + 1) 0
        = (exclusiveSumFrom acc xs).getD i 0 + (xs.getD i 0 - 1) := by
  induction xs with
  | nil => intro acc i h; simp at h
  | cons x rest ih =>
    intro acc i h
    have hlen : i < rest.length := by simpa using h
    cases i with
    | zero =>
      simp only [exclusiveSumFrom, List.getD_cons_succ, List.getD_cons_zero]
      rw [exclusiveSumFrom_getD_zero rest _ hlen]
    | succ j =>
      simp only [exclusiveSumFrom, List.getD_cons_succ]
      exact ih _ j hlen

theorem exclusiveSumFrom_getD_eq_sum (xs : List Int) (i : Nat) (h : i < xs.length) :
    (exclusiveSumFrom 0 xs).getD i 0 = ∑ j in Finset.range i, (xs.getD j 0 - 1) := by
  induction i with
  | zero => rw [Finset.sum_range_zero]; exact exclusiveSumFrom_getD_zero xs 0 h
  | succ k ih =>
    rw [exclusiveSumFrom_getD_succ xs 0 k h, ih (by omega), Finset.sum_range_succ]

/-- C8. Exclusive prefix sum: after a step that returns, for every batch index i the
entry exclusiveSumAcceptedIndices[i] is the sum of (numAcceptedTokens[j] - 1) over all
j < i; so entry 0 is 0 and for i > 0 entry i is entry i-1 plus
(numAcceptedTokens[i-1] - 1). -/
theorem exclusiveSum_after_step (self : EagleSampleAndAcceptDraftTokensPlugin)
    (env : Collaborators) (inputDesc : InputIdxEntry → PluginTensorDesc)
    (outputDesc : OutputIdxEntry → PluginTensorDesc) (dev : Device) (r : Int) (i : Nat)
    (h : (self.enqueue env inputDesc outputDesc dev).2 = .ok r)
    (hi : (i : Int) < (inputDesc InputIdxEntry.PATHS).dims.d 0) :
    outputTensor (self.enqueue env inputDesc outputDesc dev).1
          OutputIdxEntry.EXCLUSIVE_SUM_LAST_TOKEN_INDICES i
        = ∑ j in Finset.range i,
            (outputTensor (self.enqueue env inputDesc outputDesc dev).1
              OutputIdxEntry.ACCEPTED_LEN j - 1)
      ∧ outputTensor (self.enqueue env inputDesc outputDesc dev).1
          OutputIdxEntry.EXCLUSIVE_SUM_LAST_TOKEN_INDICES 0 = 0
      ∧ (0 < i →
          outputTensor (self.enqueue env inputDesc outputDesc dev).1
              OutputIdxEntry.EXCLUSIVE_SUM_LAST_TOKEN_INDICES i
            = outputTensor (self.enqueue env inputDesc outputDesc dev).1
                OutputIdxEntry.EXCLUSIVE_SUM_LAST_TOKEN_INDICES (i - 1)
              + (outputTensor (self.enqueue env inputDesc outputDesc dev).1
                  OutputIdxEntry.ACCEPTED_LEN (i - 1) - 1)) := by
  obtain ⟨T, _, hB, _, _, _, _, hE⟩ := enqueue_ok_outputs self env inputDesc outputDesc dev r h
  have hiB : i < ((inputDesc InputIdxEntry.PATHS).dims.d 0).toNat := by omega
  have hlen : ∀ k, k < ((List.range ((inputDesc InputIdxEntry.PATHS).dims.d 0).toNat).map
      (fun (b : Nat) => readAt ((self.enqueue env inputDesc outputDesc dev).1.mem
        (Ptr.output OutputIdxEntry.ACCEPTED_LEN)) (b : Int))).length
      ↔ k < ((inputDesc InputIdxEntry.PATHS).dims.d 0).toNat := by
    intro k; simp
  have hget : ∀ k, k < ((inputDesc InputIdxEntry.PATHS).dims.d 0).toNat →
      ((List.range ((inputDesc InputIdxEntry.PATHS).dims.d 0).toNat).map
        (fun (b : Nat) => readAt ((self.enqueue env inputDesc outputDesc dev).1.mem
          (Ptr.output OutputIdxEntry.ACCEPTED_LEN)) (b : Int))).getD k 0
        = outputTensor (self.enqueue env inputDesc outputDesc dev).1
            OutputIdxEntry.ACCEPTED_LEN k := by
    intro k hk
    rw [← readAt_natCast, readAt_map_range _ _ _ hk]
    rfl
  have hsum : ∀ k, k < ((inputDesc InputIdxEntry.PATHS).dims.d 0).toNat →
      outputTensor (self.enqueue env inputDesc outputDesc dev).1
          OutputIdxEntry.EXCLUSIVE_SUM_LAST_TOKEN_INDICES k
        = ∑ j in Finset.range k,
            (outputTensor (self.enqueue env inputDesc outputDesc dev).1
              OutputIdxEntry.ACCEPTED_LEN j - 1) := by
    intro k hk
    unfold outputTensor
    rw [readAt_natCast]
    rw [hE, exclusiveSumFrom_getD_eq_sum _ k ((hlen k).2 hk)]
    apply Finset.sum_congr rfl
    intro j hj
    have hjk : j < ((inputDesc InputIdxEntry.PATHS).dims.d 0).toNat := by
      have := Finset.mem_range.1 hj
      omega
    have := hget j hjk
    unfold outputTensor at this
    rw [this]
  refine ⟨hsum i hiB, ?_, ?_⟩
  · have := hsum 0 (by omega)
    simpa using this
  · intro hpos
    obtain ⟨k, rfl⟩ : ∃ k, i = k + 1 := ⟨i - 1, by omega⟩
    rw [hsum (k + 1) hiB, Finset.sum_range_succ, ← hsum k (by omega)]
    simp

theorem exclusiveSum_after_step_witness :
    ((EagleSampleAndAcceptDraftTokensPlugin.mk DataType.kHALF true).enqueue exampleEnv
          (exampleInputDesc DataType.kHALF 2) (exampleOutputDesc 2) scenarioC).1.mem
        (Ptr.output OutputIdxEntry.ACCEPTED_LEN) = [3, 1]
      ∧ ((EagleSampleAndAcceptDraftTokensPlugin.mk DataType.kHALF true).enqueue exampleEnv
          (exampleInputDesc DataType.kHALF 2) (exampleOutputDesc 2) scenarioC).1.mem
        (Ptr.output OutputIdxEntry.EXCLUSIVE_SUM_LAST_TOKEN_INDICES) = [0, 2]
      ∧ outputTensor ((EagleSampleAndAcceptDraftTokensPlugin.mk DataType.kHALF true).enqueue
          exampleEnv (exampleInputDesc DataType.kHALF 2) (exampleOutputDesc 2) scenarioC).1
          OutputIdxEntry.EXCLUSIVE_SUM_LAST_TOKEN_INDICES 1
        = outputTensor ((EagleSampleAndAcceptDraftTokensPlugin.mk DataType.kHALF true).enqueue
            exampleEnv (exampleInputDesc DataType.kHALF 2) (exampleOutputDesc 2) scenarioC).1
            OutputIdxEntry.EXCLUSIVE_SUM_LAST_TOKEN_INDICES (1 - 1)
          + (outputTensor ((EagleSampleAndAcceptDraftTokensPlugin.mk DataType.kHALF true).enqueue
              exampleEnv (exampleInputDesc DataType.kHALF 2) (exampleOutputDesc 2) scenarioC).1
              OutputIdxEntry.ACCEPTED_LEN (1 - 1) - 1) :=
  ⟨by decide, by decide,
    (exclusiveSum_after_step (EagleSampleAndAcceptDraftTokensPlugin.mk DataType.kHALF true)
      exampleEnv (exampleInputDesc DataType.kHALF 2) (exampleOutputDesc 2) scenarioC 0 1
      rfl (by decide)).2.2 (by decide)⟩

/-! ## The acceptance walker -/

section Walker

variable (paths draftIds targetIds : List Int) (M P D : Int) (b : Nat)

theorem matchFrom_le (p : Nat) :
    ∀ fuel k, matchFrom paths draftIds targetIds M P b p fuel k ≤ fuel := by
  intro fuel
  induction fuel with
  | zero => intro k; simp [matchFrom]
  | succ n ih =>
    intro k
    simp only [matchFrom]
    split
    · omega
    · split
      · have := ih (k + 1); omega
      · omega

/-- Every position the walk counts is a match. -/
theorem matchFrom_matches (p : Nat) :
    ∀ fuel k j, j < matchFrom paths draftIds targetIds M P b p fuel k →
      pathEntry paths M P b p (k + j) ≠ kInvalidPathEntry
        ∧ nodeToken draftIds M b (pathEntry paths M P b p (k + j))
          = nodeToken targetIds M b (pathEntry paths M P b p (k + j - 1)) := by
  intro fuel
  induction fuel with
  | zero => intro k j h; simp [matchFrom] at h
  | succ n ih =>
    intro k j h
    simp only [matchFrom] at h
    split at h
    · omega
    · rename_i hnode
      split at h
      · rename_i htok
        cases j with
        | zero => exact ⟨hnode, htok⟩
        | succ i =>
          have := ih (k + 1) i (by omega)
          have e : k + 1 + i = k + (i + 1) := by omega
          rw [e] at this
          exact this
      · omega

/-- The walk stops early only at a position that does not match. -/
theorem matchFrom_stops (p : Nat) :
    ∀ fuel k, matchFrom paths draftIds targetIds M P b p fuel k < fuel →
      ¬ (pathEntry paths M P b p
            (k + matchFrom paths draftIds targetIds M P b p fuel k) ≠ kInvalidPathEntry
          ∧ nodeToken draftIds M b (pathEntry paths M P b p
              (k + matchFrom paths draftIds targetIds M P b p fuel k))
            = nodeToken targetIds M b (pathEntry paths M P b p
              (k + matchFrom paths draftIds targetIds M P b p fuel k - 1))) := by
  intro fuel
  induction fuel with
  | zero => intro k h; simp at h
  | succ n ih =>
    intro k h
    simp only [matchFrom] at h ⊢
    split
    · rename_i hnode
      intro hc
      exact hc.1 (by simpa using hnode)
    · rename_i hnode
      split
      · rename_i htok
        rw [if_neg hnode, if_pos htok] at h
        have := ih (k + 1) (by omega)
        have e : k + (1 + matchFrom paths draftIds targetIds M P b p n (k + 1))
            = k + 1 + matchFrom paths draftIds targetIds M P b p n (k + 1) := by omega
        rw [e]
        exact this
      · rename_i htok
        intro hc
        exact htok (by simpa using hc.2)

theorem matchLength_le (p : Nat) :
    matchLength paths draftIds targetIds M P D b p ≤ D.toNat := by
  unfold matchLength
  split
  · exact matchFrom_le paths draftIds targetIds M P b p _ _
  · omega

theorem matchLength_of_not_valid (p : Nat) (h : pathValid paths M P b p = false) :
    matchLength paths draftIds targetIds M P D b p = 0 := by
  simp [matchLength, h]

theorem bestAmong_congr (seen seen' : Nat → Prop) (h : ∀ q, seen q ↔ seen' q)
    (best : Option (Nat × Nat))
    (hb : BestAmong paths draftIds targetIds M P D b seen best) :
    BestAmong paths draftIds targetIds M P D b seen' best := by
  have e : seen = seen' := funext fun q => propext (h q)
  rw [← e]
  exact hb

/-- The scan keeps its state right: started right for the paths seen so far, all of smaller
index than those still to come, it ends right for all of them. -/
theorem selectBestPath_bestAmong (ps : List Nat) :
    ∀ (seen : Nat → Prop) (best : Option (Nat × Nat)),
      ps.Pairwise (fun x y => x < y) →
      (∀ q, seen q → ∀ p ∈ ps, q < p) →
      BestAmong paths draftIds targetIds M P D b seen best →
      BestAmong paths draftIds targetIds M P D b (fun q => seen q ∨ q ∈ ps)
        (selectBestPath paths draftIds targetIds M P D b ps best) := by
  induction ps with
  | nil =>
    intro seen best _ _ hb
    simp only [selectBestPath]
    exact bestAmong_congr paths draftIds targetIds M P D b seen _ (by simp) best hb
  | cons p ps ih =>
    intro seen best hsorted hlt hb
    have hsorted' : ps.Pairwise (fun x y => x < y) := (List.pairwise_cons.1 hsorted).2
    have hp_lt : ∀ q ∈ ps, p < q := (List.pairwise_cons.1 hsorted).1
    have hlt' : ∀ q, (seen q ∨ q = p) → ∀ x ∈ ps, q < x := by
      intro q hq x hx
      rcases hq with hq | rfl
      · exact hlt q hq x (List.mem_cons_of_mem _ hx)
      · exact hp_lt x hx
    have hfin : ∀ best', BestAmong paths draftIds targetIds M P D b (fun q => seen q ∨ q = p)
        best' →
        BestAmong paths draftIds targetIds M P D b (fun q => seen q ∨ q ∈ p :: ps)
          (selectBestPath paths draftIds targetIds M P D b ps best') := by
      intro best' hb'
      refine bestAmong_congr paths draftIds targetIds M P D b _ _ ?_ _
        (ih _ best' hsorted' hlt' hb')
      intro q
      simp only [List.mem_cons]
      tauto
    by_cases hv : pathValid paths M P b p = true
    · cases best with
      | none =>
        simp only [selectBestPath, hv, if_true]
        apply hfin
        refine ⟨Or.inr rfl, hv, rfl, ?_⟩
        intro q hq hqv
        rcases hq with hq | rfl
        · have := hb q hq
          rw [this] at hqv
          cases hqv
        · exact ⟨le_refl _, fun _ => le_refl _⟩
      | some bw =>
        obtain ⟨bm, w⟩ := bw
        obtain ⟨hw, hwv, hm, hall⟩ := hb
        by_cases hlt2 : bm < matchLength paths draftIds targetIds M P D b p
        · simp only [selectBestPath, hv, if_true, hlt2]
          apply hfin
          refine ⟨Or.inr rfl, hv, rfl, ?_⟩
          intro q hq hqv
          rcases hq with hq | rfl
          · have := (hall q hq hqv).1
            exact ⟨by omega, fun e => by omega⟩
          · exact ⟨le_refl _, fun _ => le_refl _⟩
        · simp only [selectBestPath, hv, if_true, hlt2, if_false]
          apply hfin
          refine ⟨Or.inl hw, hwv, hm, ?_⟩
          intro q hq hqv
          rcases hq with hq | rfl
          · exact hall q hq hqv
          · refine ⟨by omega, fun _ => ?_⟩
            exact Nat.le_of_lt (hlt w hw q (List.mem_cons_self _ _))
    · have hv' : pathValid paths M P b p = false := by simpa using hv
      simp only [selectBestPath, hv', Bool.false_eq_true, if_false]
      apply hfin
      cases best with
      | none =>
        intro q hq
        rcases hq with hq | rfl
        · exact hb q hq
        · exact hv'
      | some bw =>
        obtain ⟨bm, w⟩ := bw
        obtain ⟨hw, hwv, hm, hall⟩ := hb
        refine ⟨Or.inl hw, hwv, hm, ?_⟩
        intro q hq hqv
        rcases hq with hq | rfl
        · exact hall q hq hqv
        · rw [hv'] at hqv
          cases hqv

/-- What the walker emits for one batch element, relative to the match lengths of its
candidate paths. -/
theorem acceptElement_spec (hM : 0 < M) :
    (acceptElement paths draftIds targetIds M P D b).1
        = matchLength paths draftIds targetIds M P D b
            (acceptElement paths draftIds targetIds M P D b).2 + 1
      ∧ ((acceptElement paths draftIds targetIds M P D b).2 : Int) < M
      ∧ (∀ q : Nat, (q : Int) < M →
          matchLength paths draftIds targetIds M P D b q
            ≤ matchLength paths draftIds targetIds M P D b
                (acceptElement paths draftIds targetIds M P D b).2)
      ∧ (∀ q : Nat, (q : Int) < M → pathValid paths M P b q = true →
          matchLength paths draftIds targetIds M P D b q
            = matchLength paths draftIds targetIds M P D b
                (acceptElement paths draftIds targetIds M P D b).2 →
          (acceptElement paths draftIds targetIds M P D b).2 ≤ q)
      ∧ ((∃ q : Nat, (q : Int) < M ∧ pathValid paths M P b q = true) →
          pathValid paths M P b (acceptElement paths draftIds targetIds M P D b).2 = true)
      ∧ ((∀ q : Nat, (q : Int) < M → pathValid paths M P b q = false) →
          (acceptElement paths draftIds targetIds M P D b).2 = 0) := by
  have hscan := selectBestPath_bestAmong paths draftIds targetIds M P D b
    (List.range M.toNat) (fun _ => False) none (List.pairwise_lt_range _)
    (fun q hq => hq.elim) (fun q hq => hq.elim)
  have hmem : ∀ q : Nat, (False ∨ q ∈ List.range M.toNat) ↔ (q : Int) < M := by
    intro q
    simp only [false_or, List.mem_range]
    omega
  unfold acceptElement
  cases hsel : selectBestPath paths draftIds targetIds M P D b (List.range M.toNat) none with
  | none =>
    rw [hsel] at hscan
    have hinv : ∀ q : Nat, (q : Int) < M → pathValid paths M P b q = false :=
      fun q hq => hscan q ((hmem q).2 hq)
    have hzero : ∀ q : Nat, (q : Int) < M →
        matchLength paths draftIds targetIds M P D b q = 0 :=
      fun q hq => matchLength_of_not_valid paths draftIds targetIds M P D b q (hinv q hq)
    refine ⟨?_, ?_, ?_, ?_, ?_, ?_⟩
    · simp [hzero 0 (by simpa using hM)]
    · simpa using hM
    · intro q hq
      simp [hzero q hq]
    · intro q hq hqv
      rw [hinv q hq] at hqv
      cases hqv
    · rintro ⟨q, hq, hqv⟩
      rw [hinv q hq] at hqv
      cases hqv
    · intro _; rfl
  | some bw =>
    obtain ⟨m, w⟩ := bw
    rw [hsel] at hscan
    obtain ⟨hw, hwv, hm, hall⟩ := hscan
    refine ⟨?_, ?_, ?_, ?_, ?_, ?_⟩
    · simp [hm]
    · exact (hmem w).1 hw
    · intro q hq
      show matchLength paths draftIds targetIds M P D b q
        ≤ matchLength paths draftIds targetIds M P D b w
      by_cases hqv : pathValid paths M P b q = true
      · have := (hall q ((hmem q).2 hq) hqv).1
        omega
      · have hqv' : pathValid paths M P b q = false := by simpa using hqv
        rw [matchLength_of_not_valid paths draftIds targetIds M P D b q hqv']
        omega
    · intro q hq hqv he
      exact (hall q ((hmem q).2 hq) hqv).2 (by rw [he, hm])
    · intro _
      exact hwv
    · intro hno
      have := hno w ((hmem w).1 hw)
      rw [this] at hwv
      cases hwv

end Walker

/-! ## Accepted length and accepted path of a step -/

/-- The two walker outputs of a successful step, for one batch element. -/
theorem enqueue_ok_element (self : EagleSampleAndAcceptDraftTokensPlugin) (env : Collaborators)
    (inputDesc : InputIdxEntry → PluginTensorDesc)
    (outputDesc : OutputIdxEntry → PluginTensorDesc) (dev : Device) (r : Int) (b : Nat)
    (h : (self.enqueue env inputDesc outputDesc dev).2 = .ok r)
    (hb : (b : Int) < (inputDesc InputIdxEntry.PATHS).dims.d 0) :
    ∃ T : Precision, (inputDesc InputIdxEntry.LOGITS).type = T.dataType
      ∧ 0 < (inputDesc InputIdxEntry.PATHS).dims.d 1
      ∧ 0 < (inputDesc InputIdxEntry.PATHS).dims.d 2
      ∧ outputTensor (self.enqueue env inputDesc outputDesc dev).1 OutputIdxEntry.ACCEPTED_LEN b
          = (((acceptElement (dev.mem (Ptr.input InputIdxEntry.PATHS))
                (dev.mem (Ptr.input InputIdxEntry.DRAFT_TOKEN_IDS))
                (sampledTokenIds env T inputDesc dev)
                ((inputDesc InputIdxEntry.PATHS).dims.d 1)
                ((inputDesc InputIdxEntry.PATHS).dims.d 2)
                ((inputDesc InputIdxEntry.PATHS).dims.d 2 - 1) b).1 : Nat) : Int)
      ∧ outputTensor (self.enqueue env inputDesc outputDesc dev).1
            OutputIdxEntry.BEST_ACCEPTED_PATHS b
          = (((acceptElement (dev.mem (Ptr.input InputIdxEntry.PATHS))
                (dev.mem (Ptr.input InputIdxEntry.DRAFT_TOKEN_IDS))
                (sampledTokenIds env T inputDesc dev)
                ((inputDesc InputIdxEntry.PATHS).dims.d 1)
                ((inputDesc InputIdxEntry.PATHS).dims.d 2)
                ((inputDesc InputIdxEntry.PATHS).dims.d 2 - 1) b).2 : Nat) : Int) := by
  obtain ⟨T, hT, hB, hM, hP, hL, hW, _⟩ :=
    enqueue_ok_outputs self env inputDesc outputDesc dev r h
  have hbB : b < ((inputDesc InputIdxEntry.PATHS).dims.d 0).toNat := by omega
  refine ⟨T, hT, hM, hP, ?_, ?_⟩
  · unfold outputTensor
    rw [hL, readAt_map_range _ _ _ hbB]
  · unfold outputTensor
    rw [hW, readAt_map_range _ _ _ hbB]

/-- C9. Accepted length range: after a step that returns, numAcceptedTokens of every batch
element is at least 1 and at most maxPathLen, the third dimension of the paths input.  The
walker is configured with maxSeqLen = maxPathLen and maxDraftPathLen = maxPathLen - 1, and
the accepted length is the match length of the accepted path (its matched draft
positions) plus one. -/
theorem acceptedLength_range (self : EagleSampleAndAcceptDraftTokensPlugin)
    (env : Collaborators) (inputDesc : InputIdxEntry → PluginTensorDesc)
    (outputDesc : OutputIdxEntry → PluginTensorDesc) (dev : Device) (r : Int) (b : Nat)
    (h : (self.enqueue env inputDesc outputDesc dev).2 = .ok r)
    (hb : (b : Int) < (inputDesc InputIdxEntry.PATHS).dims.d 0) :
    1 ≤ outputTensor (self.enqueue env inputDesc outputDesc dev).1 OutputIdxEntry.ACCEPTED_LEN b
      ∧ outputTensor (self.enqueue env inputDesc outputDesc dev).1 OutputIdxEntry.ACCEPTED_LEN b
          ≤ (inputDesc InputIdxEntry.PATHS).dims.d 2
      ∧ (∀ T : Precision,
          (acceptDraftTokensParams env T inputDesc).maxSeqLen
              = (inputDesc InputIdxEntry.PATHS).dims.d 2
            ∧ (acceptDraftTokensParams env T inputDesc).maxDraftPathLen
              = (inputDesc InputIdxEntry.PATHS).dims.d 2 - 1)
      ∧ ∃ (T : Precision) (w : Nat), (inputDesc InputIdxEntry.LOGITS).type = T.dataType
          ∧ outputTensor (self.enqueue env inputDesc outputDesc dev).1
              OutputIdxEntry.BEST_ACCEPTED_PATHS b = (w : Int)
          ∧ outputTensor (self.enqueue env inputDesc outputDesc dev).1
              OutputIdxEntry.ACCEPTED_LEN b
            = (stepMatchLength env T inputDesc dev b w : Int) + 1 := by
  obtain ⟨T, hT, hM, hP, hL, hW⟩ :=
    enqueue_ok_element self env inputDesc outputDesc dev r b h hb
  have hspec := acceptElement_spec (dev.mem (Ptr.input InputIdxEntry.PATHS))
    (dev.mem (Ptr.input InputIdxEntry.DRAFT_TOKEN_IDS)) (sampledTokenIds env T inputDesc dev)
    ((inputDesc InputIdxEntry.PATHS).dims.d 1) ((inputDesc InputIdxEntry.PATHS).dims.d 2)
    ((inputDesc InputIdxEntry.PATHS).dims.d 2 - 1) b hM
  have hle := matchLength_le (dev.mem (Ptr.input InputIdxEntry.PATHS))
    (dev.mem (Ptr.input InputIdxEntry.DRAFT_TOKEN_IDS)) (sampledTokenIds env T inputDesc dev)
    ((inputDesc InputIdxEntry.PATHS).dims.d 1) ((inputDesc InputIdxEntry.PATHS).dims.d 2)
    ((inputDesc InputIdxEntry.PATHS).dims.d 2 - 1) b
    (acceptElement (dev.mem (Ptr.input InputIdxEntry.PATHS))
      (dev.mem (Ptr.input InputIdxEntry.DRAFT_TOKEN_IDS)) (sampledTokenIds env T inputDesc dev)
      ((inputDesc InputIdxEntry.PATHS).dims.d 1) ((inputDesc InputIdxEntry.PATHS).dims.d 2)
      ((inputDesc InputIdxEntry.PATHS).dims.d 2 - 1) b).2
  have h1 := hspec.1
  refine ⟨?_, ?_, fun T => ⟨rfl, rfl⟩, T, _, hT, hW, ?_⟩
  · rw [hL]; omega
  · rw [hL]; omega
  · rw [hL, h1]
    unfold stepMatchLength
    push_cast
    rfl

theorem acceptedLength_range_witness :
    outputTensor ((EagleSampleAndAcceptDraftTokensPlugin.mk DataType.kFLOAT true).enqueue
        exampleEnv (exampleInputDesc DataType.kFLOAT 1) (exampleOutputDesc 1) scenarioA).1
        OutputIdxEntry.ACCEPTED_LEN 0 = 4
      ∧ 1 ≤ outputTensor ((EagleSampleAndAcceptDraftTokensPlugin.mk DataType.kFLOAT true).enqueue
          exampleEnv (exampleInputDesc DataType.kFLOAT 1) (exampleOutputDesc 1) scenarioA).1
          OutputIdxEntry.ACCEPTED_LEN 0
      ∧ outputTensor ((EagleSampleAndAcceptDraftTokensPlugin.mk DataType.kFLOAT true).enqueue
          exampleEnv (exampleInputDesc DataType.kFLOAT 1) (exampleOutputDesc 1) scenarioA).1
          OutputIdxEntry.ACCEPTED_LEN 0
        ≤ ((exampleInputDesc DataType.kFLOAT 1) InputIdxEntry.PATHS).dims.d 2 :=
  have h := acceptedLength_range (EagleSampleAndAcceptDraftTokensPlugin.mk DataType.kFLOAT true)
    exampleEnv (exampleInputDesc DataType.kFLOAT 1) (exampleOutputDesc 1) scenarioA 0 0
    rfl (by decide)
  ⟨by decide, h.1, h.2.1⟩

/-- C10. Longest match with lowest-index tie-break.  A candidate path is a row of the
path table that holds a path, that is whose first entry is not the sentinel (sections 3
and 4.2 of the spec); padding rows are not paths.  After a step that returns, for every
batch element acceptedPathId is the index w of a row whose match length is the greatest
over all rows of the element, hence over all its candidate paths; w is a candidate path
whenever the element has one; among all candidate paths with that greatest match length
w is the smallest index; numAcceptedTokens is that match length plus one, so it is
exactly 1 when every path mismatches at its first draft position.  The match length of a
path counts its leading draft positions whose draft token equals the base-model token
sampled at the predecessor node. -/
theorem acceptedPath_longest_match (self : EagleSampleAndAcceptDraftTokensPlugin)
    (env : Collaborators) (inputDesc : InputIdxEntry → PluginTensorDesc)
    (outputDesc : OutputIdxEntry → PluginTensorDesc) (dev : Device) (r : Int) (b : Nat)
    (h : (self.enqueue env inputDesc outputDesc dev).2 = .ok r)
    (hb : (b : Int) < (inputDesc InputIdxEntry.PATHS).dims.d 0) :
    ∃ (T : Precision) (w : Nat), (inputDesc InputIdxEntry.LOGITS).type = T.dataType
      ∧ outputTensor (self.enqueue env inputDesc outputDesc dev).1
          OutputIdxEntry.BEST_ACCEPTED_PATHS b = (w : Int)
      ∧ (w : Int) < (inputDesc InputIdxEntry.PATHS).dims.d 1
      ∧ (∀ q : Nat, (q : Int) < (inputDesc InputIdxEntry.PATHS).dims.d 1 →
          stepMatchLength env T inputDesc dev b q ≤ stepMatchLength env T inputDesc dev b w)
      ∧ (∀ q : Nat, (q : Int) < (inputDesc InputIdxEntry.PATHS).dims.d 1 →
          stepPathValid inputDesc dev b q →
          stepMatchLength env T inputDesc dev b q = stepMatchLength env T inputDesc dev b w →
          w ≤ q)
      ∧ ((∃ q : Nat, (q : Int) < (inputDesc InputIdxEntry.PATHS).dims.d 1
            ∧ stepPathValid inputDesc dev b q) → stepPathValid inputDesc dev b w)
      ∧ outputTensor (self.enqueue env inputDesc outputDesc dev).1 OutputIdxEntry.ACCEPTED_LEN b
          = (stepMatchLength env T inputDesc dev b w : Int) + 1
      ∧ ((∀ q : Nat, (q : Int) < (inputDesc InputIdxEntry.PATHS).dims.d 1 →
            stepMatchLength env T inputDesc dev b q = 0) →
          outputTensor (self.enqueue env inputDesc outputDesc dev).1
            OutputIdxEntry.ACCEPTED_LEN b = 1)
      ∧ (∀ q : Nat, stepPathValid inputDesc dev b q →
          (∀ k : Nat, 1 ≤ k → k ≤ stepMatchLength env T inputDesc dev b q →
            stepMatchAt env T inputDesc dev b q k)
          ∧ ((stepMatchLength env T inputDesc dev b q : Int)
                < (inputDesc InputIdxEntry.PATHS).dims.d 2 - 1 →
              ¬ stepMatchAt env T inputDesc dev b q
                  (stepMatchLength env T inputDesc dev b q + 1))) := by
  obtain ⟨T, hT, hM, hP, hL, hW⟩ :=
    enqueue_ok_element self env inputDesc outputDesc dev r b h hb
  obtain ⟨h1, h2, h3, h4, h5, _⟩ := acceptElement_spec
    (dev.mem (Ptr.input InputIdxEntry.PATHS))
    (dev.mem (Ptr.input InputIdxEntry.DRAFT_TOKEN_IDS)) (sampledTokenIds env T inputDesc dev)
    ((inputDesc InputIdxEntry.PATHS).dims.d 1) ((inputDesc InputIdxEntry.PATHS).dims.d 2)
    ((inputDesc InputIdxEntry.PATHS).dims.d 2 - 1) b hM
  have hlen : outputTensor (self.enqueue env inputDesc outputDesc dev).1
      OutputIdxEntry.ACCEPTED_LEN b
      = (stepMatchLength env T inputDesc dev b
          (acceptElement (dev.mem (Ptr.input InputIdxEntry.PATHS))
            (dev.mem (Ptr.input InputIdxEntry.DRAFT_TOKEN_IDS))
            (sampledTokenIds env T inputDesc dev)
            ((inputDesc InputIdxEntry.PATHS).dims.d 1)
            ((inputDesc InputIdxEntry.PATHS).dims.d 2)
            ((inputDesc InputIdxEntry.PATHS).dims.d 2 - 1) b).2 : Int) + 1 := by
    rw [hL, h1]
    unfold stepMatchLength
    push_cast
    rfl
  refine ⟨T, _, hT, hW, h2, h3, h4, h5, hlen, ?_, ?_⟩
  · intro hzero
    rw [hlen, hzero _ h2]
    rfl
  · intro q hqv
    have hval : pathValid (dev.mem (Ptr.input InputIdxEntry.PATHS))
        ((inputDesc InputIdxEntry.PATHS).dims.d 1) ((inputDesc InputIdxEntry.PATHS).dims.d 2)
        b q = true := hqv
    have hml : stepMatchLength env T inputDesc dev b q
        = matchFrom (dev.mem (Ptr.input InputIdxEntry.PATHS))
            (dev.mem (Ptr.input InputIdxEntry.DRAFT_TOKEN_IDS))
            (sampledTokenIds env T inputDesc dev)
            ((inputDesc InputIdxEntry.PATHS).dims.d 1)
            ((inputDesc InputIdxEntry.PATHS).dims.d 2) b q
            ((inputDesc InputIdxEntry.PATHS).dims.d 2 - 1).toNat 1 := by
      simp [stepMatchLength, matchLength, hval]
    constructor
    · intro k hk1 hk2
      obtain ⟨j, rfl⟩ : ∃ j, k = 1 + j := ⟨k - 1, by omega⟩
      rw [hml] at hk2
      exact matchFrom_matches (dev.mem (Ptr.input InputIdxEntry.PATHS))
        (dev.mem (Ptr.input InputIdxEntry.DRAFT_TOKEN_IDS))
        (sampledTokenIds env T inputDesc dev)
        ((inputDesc InputIdxEntry.PATHS).dims.d 1)
        ((inputDesc InputIdxEntry.PATHS).dims.d 2) b q
        ((inputDesc InputIdxEntry.PATHS).dims.d 2 - 1).toNat 1 j (by omega)
    · intro hlt
      rw [hml] at hlt ⊢
      have := matchFrom_stops (dev.mem (Ptr.input InputIdxEntry.PATHS))
        (dev.mem (Ptr.input InputIdxEntry.DRAFT_TOKEN_IDS))
        (sampledTokenIds env T inputDesc dev)
        ((inputDesc InputIdxEntry.PATHS).dims.d 1)
        ((inputDesc InputIdxEntry.PATHS).dims.d 2) b q
        ((inputDesc InputIdxEntry.PATHS).dims.d 2 - 1).toNat 1 (by omega)
      rw [Nat.add_comm] at this
      exact this

theorem acceptedPath_longest_match_witness :
    (outputTensor ((EagleSampleAndAcceptDraftTokensPlugin.mk DataType.kFLOAT true).enqueue
          exampleEnv (exampleInputDesc DataType.kFLOAT 1) (exampleOutputDesc 1) scenarioA).1
          OutputIdxEntry.BEST_ACCEPTED_PATHS 0 = 0
      ∧ outputTensor ((EagleSampleAndAcceptDraftTokensPlugin.mk DataType.kFLOAT true).enqueue
          exampleEnv (exampleInputDesc DataType.kFLOAT 1) (exampleOutputDesc 1) scenarioA).1
          OutputIdxEntry.ACCEPTED_LEN 0 = 4)
      ∧ (outputTensor ((EagleSampleAndAcceptDraftTokensPlugin.mk DataType.kFLOAT true).enqueue
          exampleEnv twoPathDesc (exampleOutputDesc 1) tiedPaths).1
          OutputIdxEntry.BEST_ACCEPTED_PATHS 0 = 0
        ∧ outputTensor ((EagleSampleAndAcceptDraftTokensPlugin.mk DataType.kFLOAT true).enqueue
          exampleEnv twoPathDesc (exampleOutputDesc 1) tiedPaths).1
          OutputIdxEntry.ACCEPTED_LEN 0 = 2
        ∧ stepMatchLength exampleEnv Precision.float twoPathDesc tiedPaths 0 0 = 1
        ∧ stepMatchLength exampleEnv Precision.float twoPathDesc tiedPaths 0 1 = 1)
      ∧ ∃ (T : Precision) (w : Nat),
        (twoPathDesc InputIdxEntry.LOGITS).type = T.dataType
        ∧ outputTensor ((EagleSampleAndAcceptDraftTokensPlugin.mk DataType.kFLOAT true).enqueue
            exampleEnv twoPathDesc (exampleOutputDesc 1) tiedPaths).1
            OutputIdxEntry.BEST_ACCEPTED_PATHS 0 = (w : Int)
        ∧ (∀ q : Nat, (q : Int) < (twoPathDesc InputIdxEntry.PATHS).dims.d 1 →
            stepMatchLength exampleEnv T twoPathDesc tiedPaths 0 q
              ≤ stepMatchLength exampleEnv T twoPathDesc tiedPaths 0 w)
        ∧ (∀ q : Nat, (q : Int) < (twoPathDesc InputIdxEntry.PATHS).dims.d 1 →
            stepPathValid twoPathDesc tiedPaths 0 q →
            stepMatchLength exampleEnv T twoPathDesc tiedPaths 0 q
              = stepMatchLength exampleEnv T twoPathDesc tiedPaths 0 w →
            w ≤ q)
        ∧ outputTensor ((EagleSampleAndAcceptDraftTokensPlugin.mk DataType.kFLOAT true).enqueue
            exampleEnv twoPathDesc (exampleOutputDesc 1) tiedPaths).1
            OutputIdxEntry.ACCEPTED_LEN 0
          = (stepMatchLength exampleEnv T twoPathDesc tiedPaths 0 w : Int) + 1 := by
  obtain ⟨T, w, hT, hW, _, hmax, htie, _, hlen, _⟩ := acceptedPath_longest_match
    (EagleSampleAndAcceptDraftTokensPlugin.mk DataType.kFLOAT true) exampleEnv
    twoPathDesc (exampleOutputDesc 1) tiedPaths 0 0 rfl (by decide)
  exact ⟨⟨by decide, by decide⟩, ⟨by decide, by decide, by decide, by decide⟩,
    T, w, hT, hW, hmax, htie, hlen⟩

/-! ## Construction paths and the greedy flag -/

/-- A plugin the `(type, greedySampling)` constructor produces is greedy. -/
theorem construct_ok_greedy (type : DataType) (greedySampling : Bool)
    (obj : EagleSampleAndAcceptDraftTokensPlugin)
    (h : EagleSampleAndAcceptDraftTokensPlugin.construct type greedySampling = .ok obj) :
    obj.mGreedySampling = true ∧ obj.mDtype = type := by
  cases greedySampling with
  | false => rw [construct_false] at h; cases h
  | true =>
    rw [construct_true] at h
    cases h
    exact ⟨rfl, rfl⟩

/-- A plugin `createPlugin` returns is greedy, whatever the field collection holds. -/
theorem createPlugin_ok_greedy (type0 : DataType) (greedySampling0 : Bool)
    (fc : List PluginField) (obj : EagleSampleAndAcceptDraftTokensPlugin)
    (h : createPlugin type0 greedySampling0 fc = .ok (some obj)) :
    obj.mGreedySampling = true := by
  unfold createPlugin at h
  cases hf : createPluginFields fc (type0, greedySampling0) with
  | error e => rw [hf] at h; cases h
  | ok st =>
    obtain ⟨type, greedySampling⟩ := st
    rw [hf] at h
    simp only at h
    cases hc : EagleSampleAndAcceptDraftTokensPlugin.construct type greedySampling with
    | error e => rw [hc] at h; cases h
    | ok o =>
      rw [hc] at h
      cases h
      exact (construct_ok_greedy type greedySampling _ hc).1

/-- The deserialising constructor takes the greedy flag from the fifth byte as it is: with
the right length it succeeds for a zero byte too, and the plugin is not greedy. -/
theorem deserialize_flag_byte_zero (data : Nat → Byte) (h : (data 4).val = 0) :
    EagleSampleAndAcceptDraftTokensPlugin.deserialize data 5
      = .ok ⟨(readDataType data 0).1, false⟩ := by
  rw [deserialize_eq, if_pos rfl]
  simp [readBool, h]

/-- C11 (the code at the failing input). The five bytes 1 0 0 0 0 are the serialised
configuration (kHALF, greedy flag false).  Deserialising them with length 5 succeeds:
deserializePlugin returns a plugin whose greedy flag is false, and a step of that plugin
reaches the non-greedy branch of enqueueType, which throws at call time with nothing
launched. -/
theorem deserialize_yields_non_greedy_plugin :
    (EagleSampleAndAcceptDraftTokensPlugin.mk DataType.kHALF false).serialize = [1, 0, 0, 0, 0]
      ∧ EagleSampleAndAcceptDraftTokensPlugin.deserialize (memoryOf [1, 0, 0, 0, 0]) 5
        = .ok ⟨DataType.kHALF, false⟩
      ∧ deserializePlugin (memoryOf [1, 0, 0, 0, 0]) 5 = some ⟨DataType.kHALF, false⟩
      ∧ (EagleSampleAndAcceptDraftTokensPlugin.mk DataType.kHALF false).clone
        = ⟨DataType.kHALF, false⟩
      ∧ (EagleSampleAndAcceptDraftTokensPlugin.mk DataType.kHALF false).enqueueType exampleEnv
          Precision.half (exampleInputDesc DataType.kHALF 1) (exampleOutputDesc 1) scenarioA
        = (scenarioA, .error "Non-greedy sampling is not supported yet")
      ∧ (EagleSampleAndAcceptDraftTokensPlugin.mk DataType.kHALF false).enqueue exampleEnv
          (exampleInputDesc DataType.kHALF 1) (exampleOutputDesc 1) scenarioA
        = (scenarioA, .error "Non-greedy sampling is not supported yet") := by
  have hd : EagleSampleAndAcceptDraftTokensPlugin.deserialize (memoryOf [1, 0, 0, 0, 0]) 5
      = .ok ⟨DataType.kHALF, false⟩ := by
    rw [deserialize_flag_byte_zero _ (by decide)]
    rfl
  refine ⟨by decide, hd, ?_, rfl, rfl, rfl⟩
  rw [deserializePlugin, hd]

/-! ## Construction and the precision tag -/

/-- C12 (as stated, at a concrete input). Constructing the plugin with the tag kINT8 and
greedy mode requested succeeds, and so does createPlugin with type_id = 2 (kINT8): a
plugin configured with an unsupported precision exists. -/
theorem construct_accepts_unsupported_precision :
    EagleSampleAndAcceptDraftTokensPlugin.construct DataType.kINT8 true
        = .ok ⟨DataType.kINT8, true⟩
      ∧ createPlugin 0 false
          [⟨"type_id", 2, PluginFieldType.kINT32, 1⟩,
           ⟨"greedy_sampling", 1, PluginFieldType.kINT32, 1⟩]
        = .ok (some ⟨DataType.kINT8, true⟩)
      ∧ DataType.kINT8 ≠ DataType.kFLOAT ∧ DataType.kINT8 ≠ DataType.kHALF := by
  refine ⟨rfl, ?_, by decide, by decide⟩
  simp [createPlugin, createPluginFields, TLLM_CHECK, construct_true]
  rfl

/-- C12 (amended). Unsupported precision is detected at setup, not at construction.
Constructing the plugin with any precision tag and greedy mode requested succeeds and
keeps the tag.  For every declared logits type other than kFLOAT and kHALF the sizing
query getWorkspaceSize and enqueue throw "Unsupported logits type", enqueue with nothing
launched and nothing written.  A plugin whose own tag is unsupported accepts in
supportsFormatCombination only logits of that tag, so a sizing query or a step on
descriptors it accepted fails in this way. -/
theorem unsupported_precision_detected_at_setup
    (self : EagleSampleAndAcceptDraftTokensPlugin) (env : Collaborators) (type : DataType)
    (inputDesc : InputIdxEntry → PluginTensorDesc)
    (outputDesc : OutputIdxEntry → PluginTensorDesc) (dev : Device)
    (nbInputs nbOutputs : Int) (getIdx : InputIdxEntry → Int) (inOut : Int → PluginTensorDesc) :
    EagleSampleAndAcceptDraftTokensPlugin.construct type true = .ok ⟨type, true⟩
      ∧ ((inputDesc InputIdxEntry.LOGITS).type ≠ DataType.kFLOAT →
          (inputDesc InputIdxEntry.LOGITS).type ≠ DataType.kHALF →
          self.getWorkspaceSize env inputDesc nbInputs outputDesc nbOutputs
              = .error "Unsupported logits type"
            ∧ self.enqueue env inputDesc outputDesc dev
              = (dev, .error "Unsupported logits type"))
      ∧ (self.mDtype ≠ DataType.kFLOAT → self.mDtype ≠ DataType.kHALF →
          self.supportsFormatCombination getIdx (getIdx InputIdxEntry.LOGITS) inOut nbInputs
            nbOutputs = true →
          inOut (getIdx InputIdxEntry.LOGITS) = inputDesc InputIdxEntry.LOGITS →
          (inputDesc InputIdxEntry.LOGITS).type = self.mDtype
            ∧ self.getWorkspaceSize env inputDesc nbInputs outputDesc nbOutputs
              = .error "Unsupported logits type"
            ∧ self.enqueue env inputDesc outputDesc dev
              = (dev, .error "Unsupported logits type")) := by
  refine ⟨rfl, ?_, ?_⟩
  · intro h1 h2
    exact ⟨getWorkspaceSize_unsupported self env inputDesc nbInputs outputDesc nbOutputs h1 h2,
      enqueue_unsupported self env inputDesc outputDesc dev h1 h2⟩
  · intro h1 h2 hs hio
    have ht : (inputDesc InputIdxEntry.LOGITS).type = self.mDtype := by
      unfold EagleSampleAndAcceptDraftTokensPlugin.supportsFormatCombination at hs
      rw [if_pos rfl, hio] at hs
      simp only [Bool.and_eq_true, decide_eq_true_eq] at hs
      exact hs.1
    have h1' : (inputDesc InputIdxEntry.LOGITS).type ≠ DataType.kFLOAT := by rw [ht]; exact h1
    have h2' : (inputDesc InputIdxEntry.LOGITS).type ≠ DataType.kHALF := by rw [ht]; exact h2
    exact ⟨ht,
      getWorkspaceSize_unsupported self env inputDesc nbInputs outputDesc nbOutputs h1' h2',
      enqueue_unsupported self env inputDesc outputDesc dev h1' h2'⟩

theorem unsupported_precision_detected_at_setup_witness :
    (EagleSampleAndAcceptDraftTokensPlugin.mk DataType.kINT8 true).supportsFormatCombination
        exampleGetIdx 0 (fun _ => (exampleInputDesc DataType.kINT8 1) InputIdxEntry.LOGITS) 6 7
        = true
      ∧ (EagleSampleAndAcceptDraftTokensPlugin.mk DataType.kINT8 true).getWorkspaceSize
          exampleEnv (exampleInputDesc DataType.kINT8 1) 6 (exampleOutputDesc 1) 7
        = .error "Unsupported logits type"
      ∧ (EagleSampleAndAcceptDraftTokensPlugin.mk DataType.kINT8 true).enqueue exampleEnv
          (exampleInputDesc DataType.kINT8 1) (exampleOutputDesc 1) scenarioA
        = (scenarioA, .error "Unsupported logits type") :=
  have h := (unsupported_precision_detected_at_setup
    (EagleSampleAndAcceptDraftTokensPlugin.mk DataType.kINT8 true) exampleEnv DataType.kINT8
    (exampleInputDesc DataType.kINT8 1) (exampleOutputDesc 1) scenarioA 6 7 exampleGetIdx
    (fun _ => (exampleInputDesc DataType.kINT8 1) InputIdxEntry.LOGITS)).2.2
    (by decide) (by decide) (by decide) rfl
  ⟨by decide, h.2.1, h.2.2⟩

/-! ## Stage order of a step -/

/-- The result of `enqueueType<T>` seen from `enqueue` when the logits type selects `T`. -/
theorem enqueue_eq_of_enqueueType (self : EagleSampleAndAcceptDraftTokensPlugin)
    (env : Collaborators) (inputDesc : InputIdxEntry → PluginTensorDesc)
    (outputDesc : OutputIdxEntry → PluginTensorDesc) (dev dev' : Device) (T : Precision)
    (r : Except String Unit)
    (hT : (inputDesc InputIdxEntry.LOGITS).type = T.dataType)
    (h : self.enqueueType env T inputDesc outputDesc dev = (dev', r)) :
    self.enqueue env inputDesc outputDesc dev = (dev', r.map (fun _ => (0 : Int))) := by
  have hs := enqueue_supported self env inputDesc outputDesc dev T hT
  rw [h] at hs
  exact Prod.ext hs.1 hs.2

/-- C13 (as stated, at a concrete input). A greedy plugin, logits declared kFLOAT, and a
path table with an entry out of range: the sampler runs, the walker's validation throws,
and neither the walker kernel nor post-processing is launched; enqueue does not return
0. -/
theorem enqueue_aborts_when_validation_fails :
    ((EagleSampleAndAcceptDraftTokensPlugin.mk DataType.kFLOAT true).enqueue exampleEnv
          twoPathDesc (exampleOutputDesc 1) outOfRangePath).1.trace
        = [Event.assembleTargetLogitsOffsets Precision.float,
           Event.batchTopKSampling Precision.float, Event.checkParams]
      ∧ ((EagleSampleAndAcceptDraftTokensPlugin.mk DataType.kFLOAT true).enqueue exampleEnv
          twoPathDesc (exampleOutputDesc 1) outOfRangePath).2
        = .error "Assertion failed: paths in range"
      ∧ ((EagleSampleAndAcceptDraftTokensPlugin.mk DataType.kFLOAT true).enqueue exampleEnv
          twoPathDesc (exampleOutputDesc 1) outOfRangePath).2 ≠ .ok 0 := by
  refine ⟨by decide, rfl, ?_⟩
  intro h
  cases h

/-- C13 (amended). Stage order of a step.  For a greedy plugin and a supported logits
precision, when the walker's parameter validation passes enqueue launches exactly the
Top-1 sampler (logits offsets, then Top-K sampling), the walker's validation, the walker
kernel and post-processing, each once and in this order, and returns 0.  When the
validation throws, the sampler and the validation have run and neither the walker kernel
nor post-processing is launched.  When the plugin is not greedy nothing is launched, so
post-processing never runs without the greedy stage. -/
theorem enqueue_stage_order (self : EagleSampleAndAcceptDraftTokensPlugin)
    (env : Collaborators) (inputDesc : InputIdxEntry → PluginTensorDesc)
    (outputDesc : OutputIdxEntry → PluginTensorDesc) (dev : Device) (T : Precision)
    (hT : (inputDesc InputIdxEntry.LOGITS).type = T.dataType) :
    (self.mGreedySampling = true →
        checkParams (acceptDraftTokensParams env T inputDesc)
            (samplePrimeHeadTokens env T inputDesc dev).mem = .ok () →
        (self.enqueue env inputDesc outputDesc dev).1.trace
            = dev.trace ++ [Event.assembleTargetLogitsOffsets T, Event.batchTopKSampling T,
                Event.checkParams, Event.acceptDraftTokensByIdsWithPaths T,
                Event.selectLastAccTokenAndComputeIndicesCumSum]
          ∧ (self.enqueue env inputDesc outputDesc dev).2 = .ok 0)
      ∧ (self.mGreedySampling = true →
          ∀ e, checkParams (acceptDraftTokensParams env T inputDesc)
              (samplePrimeHeadTokens env T inputDesc dev).mem = .error e →
            (self.enqueue env inputDesc outputDesc dev).1.trace
                = dev.trace ++ [Event.assembleTargetLogitsOffsets T, Event.batchTopKSampling T,
                    Event.checkParams]
              ∧ (self.enqueue env inputDesc outputDesc dev).2 = .error e)
      ∧ (self.mGreedySampling = false →
          (self.enqueue env inputDesc outputDesc dev).1.trace = dev.trace
            ∧ (self.enqueue env inputDesc outputDesc dev).1.mem = dev.mem
            ∧ (self.enqueue env inputDesc outputDesc dev).2
              = .error "Non-greedy sampling is not supported yet") := by
  refine ⟨?_, ?_, ?_⟩
  · intro hg hc
    rcases enqueueType_cases self env T inputDesc outputDesc dev with
      ⟨hng, _⟩ | ⟨_, e, he, _⟩ | ⟨_, _, h⟩
    · rw [hg] at hng; cases hng
    · rw [hc] at he; cases he
    · rw [enqueue_eq_of_enqueueType self env inputDesc outputDesc dev _ T _ hT h]
      simp [selectLastAccTokenAndComputeIndicesCumSum, Except.map]
  · intro hg e hc
    rcases enqueueType_cases self env T inputDesc outputDesc dev with
      ⟨hng, _⟩ | ⟨_, e', he, h⟩ | ⟨_, hok, _⟩
    · rw [hg] at hng; cases hng
    · rw [hc] at he
      cases he
      rw [enqueue_eq_of_enqueueType self env inputDesc outputDesc dev _ T _ hT h]
      exact ⟨rfl, rfl⟩
    · rw [hc] at hok; cases hok
  · intro hg
    rcases enqueueType_cases self env T inputDesc outputDesc dev with
      ⟨_, h⟩ | ⟨hgt, _⟩ | ⟨hgt, _⟩
    · rw [enqueue_eq_of_enqueueType self env inputDesc outputDesc dev _ T _ hT h]
      exact ⟨rfl, rfl, rfl⟩
    · rw [hg] at hgt; cases hgt
    · rw [hg] at hgt; cases hgt

theorem enqueue_stage_order_witness :
    ((EagleSampleAndAcceptDraftTokensPlugin.mk DataType.kFLOAT true).enqueue exampleEnv
          (exampleInputDesc DataType.kFLOAT 1) (exampleOutputDesc 1) scenarioA).1.trace
        = scenarioA.trace ++ [Event.assembleTargetLogitsOffsets Precision.float,
            Event.batchTopKSampling Precision.float, Event.checkParams,
            Event.acceptDraftTokensByIdsWithPaths Precision.float,
            Event.selectLastAccTokenAndComputeIndicesCumSum]
      ∧ ((EagleSampleAndAcceptDraftTokensPlugin.mk DataType.kFLOAT true).enqueue exampleEnv
          (exampleInputDesc DataType.kFLOAT 1) (exampleOutputDesc 1) scenarioA).2 = .ok 0 :=
  (enqueue_stage_order (EagleSampleAndAcceptDraftTokensPlugin.mk DataType.kFLOAT true)
    exampleEnv (exampleInputDesc DataType.kFLOAT 1) (exampleOutputDesc 1) scenarioA
    Precision.float rfl).1 rfl rfl

/-! ## The hand-off from the sampler to the walker -/

/-- C14. Sampler-to-walker hand-off: for every shape and each supported precision the
pointer acceptDraftTokens hands to the walker as params.targetIds is the pointer
samplePrimeHeadTokens handed to the sampler as params.outputIds, a workspace offset both
reach by carving the same first sub-region from offset 0; after the sampler stage that
location holds what the Top-K kernel wrote.  The walker's params.outputIds is the
acceptedTokens output tensor, a different pointer. -/
theorem sampler_walker_handoff (env : Collaborators) (T : Precision)
    (inputDesc : InputIdxEntry → PluginTensorDesc) (dev : Device) :
    (acceptDraftTokensParams env T inputDesc).targetIds
        = (samplePrimeHeadTokensParams env T inputDesc).outputIds
      ∧ (acceptDraftTokensParams env T inputDesc).targetIds
        = Ptr.workspace (nextWorkspacePtr env.kCudaMemAlign 0
            (samplingWorkspaceBytes env T inputDesc)).2
      ∧ (samplePrimeHeadTokensWorkspace env T inputDesc).workspaceSampling
        = (acceptDraftTokensWorkspace env T inputDesc).workspaceSampling
      ∧ (samplePrimeHeadTokens env T inputDesc dev).mem
          (acceptDraftTokensParams env T inputDesc).targetIds
        = env.invokeBatchTopKSampling T (samplePrimeHeadTokensParams env T inputDesc)
            (Function.update
              (Function.update dev.mem (samplePrimeHeadTokensWorkspace env T inputDesc).logitsPtrs
                (env.invokeAssembleTargetLogitsOffsets T
                  (dev.mem (Ptr.input InputIdxEntry.LOGITS))
                  (dev.mem (Ptr.input InputIdxEntry.DRAFT_LENS))
                  ((inputDesc InputIdxEntry.PATHS).dims.d 0)
                  ((inputDesc InputIdxEntry.PATHS).dims.d 1)
                  ((inputDesc InputIdxEntry.LOGITS).dims.d 1)).1)
              (samplePrimeHeadTokensWorkspace env T inputDesc).decodingTokens
              (env.invokeAssembleTargetLogitsOffsets T
                (dev.mem (Ptr.input InputIdxEntry.LOGITS))
                (dev.mem (Ptr.input InputIdxEntry.DRAFT_LENS))
                ((inputDesc InputIdxEntry.PATHS).dims.d 0)
                ((inputDesc InputIdxEntry.PATHS).dims.d 1)
                ((inputDesc InputIdxEntry.LOGITS).dims.d 1)).2)
      ∧ (acceptDraftTokensParams env T inputDesc).outputIds
        = Ptr.output OutputIdxEntry.ACCEPTED_TOKENS
      ∧ (acceptDraftTokensParams env T inputDesc).outputIds
        ≠ (acceptDraftTokensParams env T inputDesc).targetIds := by
  refine ⟨rfl, rfl, rfl, ?_, rfl, ?_⟩
  · simp [samplePrimeHeadTokens, Function.update, acceptDraftTokensParams,
      acceptDraftTokensWorkspace, samplePrimeHeadTokensParams, samplePrimeHeadTokensWorkspace,
      nextWorkspacePtr]
  · intro h
    cases h

theorem sampler_walker_handoff_witness :
    (acceptDraftTokensParams exampleEnv Precision.half
        (exampleInputDesc DataType.kHALF 2)).targetIds = Ptr.workspace 128
      ∧ (samplePrimeHeadTokensParams exampleEnv Precision.half
        (exampleInputDesc DataType.kHALF 2)).outputIds = Ptr.workspace 128
      ∧ (acceptDraftTokensParams exampleEnv Precision.half
          (exampleInputDesc DataType.kHALF 2)).targetIds
        = (samplePrimeHeadTokensParams exampleEnv Precision.half
            (exampleInputDesc DataType.kHALF 2)).outputIds :=
  ⟨by decide, by decide,
    (sampler_walker_handoff exampleEnv Precision.half (exampleInputDesc DataType.kHALF 2)
      scenarioC).1⟩

end EaglePlugin

namespace torch_ext

/-! ## Shape of the packed mask -/

/-- The conversion to `int` keeps a value that is in the non-negative range of `int`. -/
theorem castInt_of_nonneg_of_le (x : Int) (h0 : 0 ≤ x) (h1 : x ≤ 2147483647) :
    EaglePlugin.castInt x = x := by
  unfold EaglePlugin.castInt
  have hm : x % 4294967296 = x := Int.emod_eq_of_lt h0 (by omega)
  simp only [hm]
  rw [if_pos (by omega)]

/-- The conversion to `int64_t` keeps a value that is in the non-negative range of
`int`. -/
theorem castInt64_of_nonneg_of_le (x : Int) (h0 : 0 ≤ x) (h1 : x ≤ 2147483648) :
    castInt64 x = x := by
  unfold castInt64
  have hm : x % 18446744073709551616 = x := Int.emod_eq_of_lt h0 (by omega)
  simp only [hm]
  rw [if_pos (by omega)]

/-- Rounding the quotient up and multiplying back gives the least multiple that is large
enough, less than one alignment above the value. -/
theorem leastMultipleAtLeast_roundUp (a x : Int) (ha : 0 < a) :
    LeastMultipleAtLeast a x ((x + a - 1) / a * a) ∧ (x + a - 1) / a * a - x < a := by
  have h1 : (x + a - 1) / a * a ≤ x + a - 1 := Int.ediv_mul_le _ (by omega)
  have h2 : x + a - 1 < ((x + a - 1) / a + 1) * a := Int.lt_ediv_add_one_mul_self _ ha
  have h3 : ((x + a - 1) / a + 1) * a = (x + a - 1) / a * a + a := by ring
  refine ⟨⟨Dvd.intro_left _ rfl, by omega, ?_⟩, by omega⟩
  rintro r' ⟨c, rfl⟩ hx
  have h4 : (x + a - 1) / a * a < (c + 1) * a := by
    have : (c + 1) * a = a * c + a := by ring
    omega
  have h5 : (x + a - 1) / a < c + 1 := lt_of_mul_lt_mul_right h4 (le_of_lt ha)
  have h6 : (x + a - 1) / a ≤ c := by omega
  calc (x + a - 1) / a * a ≤ c * a := mul_le_mul_of_nonneg_right h6 (le_of_lt ha)
    _ = a * c := by ring

/-- The aligned size as the code computes it, on the range where nothing overflows. -/
theorem aligned_size_eq (divUp : Int → Int → Int) (a x : Int) (hdiv : DivUpContract divUp)
    (ha : 0 < a) (hx : 1 ≤ x) (hxa : x + a - 1 ≤ 2147483647) :
    EaglePlugin.castInt (divUp x (EaglePlugin.castInt a) * a) = (x + a - 1) / a * a := by
  have hca : EaglePlugin.castInt a = a := castInt_of_nonneg_of_le a (by omega) (by omega)
  rw [hca, hdiv x a (by omega) ha hxa]
  have h1 : (x + a - 1) / a * a ≤ x + a - 1 := Int.ediv_mul_le _ (by omega)
  have h0 : 0 ≤ (x + a - 1) / a * a :=
    mul_nonneg (Int.ediv_nonneg (by omega) (by omega)) (by omega)
  exact castInt_of_nonneg_of_le _ h0 (by omega)

/-- The example `divUp` rounds the quotient up where `m + n - 1` fits in `int`. -/
theorem exampleHeaders_divUp : DivUpContract exampleHeaders.divUp := by
  intro m n hm hn hmn
  show EaglePlugin.castInt (Int.tdiv (EaglePlugin.castInt (m + n - 1)) n) = (m + n - 1) / n
  rw [castInt_of_nonneg_of_le (m + n - 1) (by omega) hmn,
    Int.tdiv_eq_ediv (by omega) (by omega)]
  have h0 : 0 ≤ (m + n - 1) / n := Int.ediv_nonneg (by omega) (by omega)
  have h1 : (m + n - 1) / n ≤ m + n - 1 := Int.ediv_le_self _ (by omega)
  exact castInt_of_nonneg_of_le _ h0 (by omega)

/-- C15 (as stated, at a concrete input). With alignments 128 and 256, batch_size = 0 and
both sequence lengths 1: pack_fmha_mask_by_type allocates a packed mask of shape
[0, 128, 8], while pack_fmha_mask_by_input_helper, given a mask of sizes [0, 1, 1] that is
on the device and passes every other check, allocates nothing and throws
"input should not be empty tensor". -/
theorem pack_fmha_mask_by_input_helper_rejects_empty_batch :
    pack_fmha_mask_by_input_helper exampleHeaders (exampleMask [0, 1, 1]) (exampleSeqLens 1)
        (exampleSeqLens 1) = .error "input should not be empty tensor"
      ∧ pack_fmha_mask_by_type exampleHeaders (exampleSeqLens 1) (exampleSeqLens 1) 0 0 1 1
        = .ok ⟨[0, 128, 8], ScalarType.Int, DeviceType.CUDA⟩
      ∧ LeastMultipleAtLeast 128 1 128 ∧ LeastMultipleAtLeast 256 1 256 := by
  refine ⟨rfl, rfl, ?_, ?_⟩
  · simpa using (leastMultipleAtLeast_roundUp 128 1 (by decide)).1
  · simpa using (leastMultipleAtLeast_roundUp 256 1 (by decide)).1

/-- C15 (amended). Packed-mask shape.  Let both alignments be positive, let `divUp` round
the quotient up, and let max_q_seqlen >= 1 and max_kv_seqlen >= 1 be such that
max_q_seqlen + M alignment - 1 and max_kv_seqlen + N alignment - 1 are within int range.
Then there are aligned_rows, the least multiple of the M alignment that is >=
max_q_seqlen, and aligned_cols, the least multiple of the N alignment that is >=
max_kv_seqlen, each less than one alignment above its sequence length, such that
pack_fmha_mask_by_type, for every batch_size >= 0 within int range, allocates the packed
mask with shape [batch_size, aligned_rows, aligned_cols / 32], and
pack_fmha_mask_by_input_helper allocates the same shape for a mask of sizes
[batch_size, max_q_seqlen, max_kv_seqlen] that passes its checks, which needs
batch_size >= 1 (with batch_size + 1 within int range) and non-empty query lengths; for
an empty mask that passes the contiguity and device checks the helper throws
"input should not be empty tensor" instead. -/
theorem packed_mask_shape (P : Headers)
    (mask_input actual_q_seqlens actual_kv_seqlens : Tensor)
    (attention_mask_type batch_size max_q_seqlen max_kv_seqlen : Int)
    (hM : 0 < P.FLASH_ATTEN_PACKED_MASK_M_ALIGNMENT)
    (hN : 0 < P.FLASH_ATTEN_PACKED_MASK_N_ALIGNMENT)
    (hdiv : DivUpContract P.divUp)
    (hb0 : 0 ≤ batch_size) (hb1 : batch_size ≤ 2147483647)
    (hq : 1 ≤ max_q_seqlen)
    (hqM : max_q_seqlen + P.FLASH_ATTEN_PACKED_MASK_M_ALIGNMENT - 1 ≤ 2147483647)
    (hkv : 1 ≤ max_kv_seqlen)
    (hkvN : max_kv_seqlen + P.FLASH_ATTEN_PACKED_MASK_N_ALIGNMENT - 1 ≤ 2147483647) :
    ∃ aligned_rows aligned_cols : Int,
      LeastMultipleAtLeast P.FLASH_ATTEN_PACKED_MASK_M_ALIGNMENT max_q_seqlen aligned_rows
        ∧ aligned_rows - max_q_seqlen < P.FLASH_ATTEN_PACKED_MASK_M_ALIGNMENT
        ∧ LeastMultipleAtLeast P.FLASH_ATTEN_PACKED_MASK_N_ALIGNMENT max_kv_seqlen aligned_cols
        ∧ aligned_cols - max_kv_seqlen < P.FLASH_ATTEN_PACKED_MASK_N_ALIGNMENT
        ∧ pack_fmha_mask_by_type P actual_q_seqlens actual_kv_seqlens attention_mask_type
            batch_size max_q_seqlen max_kv_seqlen
          = .ok ⟨[batch_size, aligned_rows, aligned_cols / 32], ScalarType.Int,
              DeviceType.CUDA⟩
        ∧ (P.CHECK_CONTIGUOUS mask_input = .ok () → P.CHECK_TH_CUDA mask_input = .ok () →
            P.CHECK_CONTIGUOUS actual_q_seqlens = .ok () →
            P.CHECK_TH_CUDA actual_q_seqlens = .ok () →
            mask_input.sizes = [batch_size, max_q_seqlen, max_kv_seqlen] →
            (mask_input.scalar_type = ScalarType.Float ∨ mask_input.scalar_type = ScalarType.Half
              ∨ mask_input.scalar_type = ScalarType.BFloat16
              ∨ mask_input.scalar_type = ScalarType.Bool
              ∨ mask_input.scalar_type = ScalarType.Int) →
            actual_q_seqlens.numel ≠ 0 → 1 ≤ batch_size → batch_size + 1 ≤ 2147483647 →
            pack_fmha_mask_by_input_helper P mask_input actual_q_seqlens actual_kv_seqlens
              = .ok ⟨[batch_size, aligned_rows, aligned_cols / 32], ScalarType.Int,
                  DeviceType.CUDA⟩)
        ∧ (P.CHECK_CONTIGUOUS mask_input = .ok () → P.CHECK_TH_CUDA mask_input = .ok () →
            P.CHECK_CONTIGUOUS actual_q_seqlens = .ok () →
            P.CHECK_TH_CUDA actual_q_seqlens = .ok () →
            mask_input.numel = 0 →
            pack_fmha_mask_by_input_helper P mask_input actual_q_seqlens actual_kv_seqlens
              = .error "input should not be empty tensor") := by
  have hR := leastMultipleAtLeast_roundUp P.FLASH_ATTEN_PACKED_MASK_M_ALIGNMENT max_q_seqlen hM
  have hC := leastMultipleAtLeast_roundUp P.FLASH_ATTEN_PACKED_MASK_N_ALIGNMENT max_kv_seqlen hN
  have hcq : EaglePlugin.castInt max_q_seqlen = max_q_seqlen :=
    castInt_of_nonneg_of_le _ (by omega) (by omega)
  have hckv : EaglePlugin.castInt max_kv_seqlen = max_kv_seqlen :=
    castInt_of_nonneg_of_le _ (by omega) (by omega)
  have hcb : EaglePlugin.castInt batch_size = batch_size :=
    castInt_of_nonneg_of_le _ hb0 hb1
  have hrows := aligned_size_eq P.divUp P.FLASH_ATTEN_PACKED_MASK_M_ALIGNMENT max_q_seqlen
    hdiv hM hq hqM
  have hcols := aligned_size_eq P.divUp P.FLASH_ATTEN_PACKED_MASK_N_ALIGNMENT max_kv_seqlen
    hdiv hN hkv hkvN
  have hR0 : 0 ≤ (max_q_seqlen + P.FLASH_ATTEN_PACKED_MASK_M_ALIGNMENT - 1)
      / P.FLASH_ATTEN_PACKED_MASK_M_ALIGNMENT * P.FLASH_ATTEN_PACKED_MASK_M_ALIGNMENT := by
    have := hR.1.2.1
    omega
  have hC0 : 0 ≤ (max_kv_seqlen + P.FLASH_ATTEN_PACKED_MASK_N_ALIGNMENT - 1)
      / P.FLASH_ATTEN_PACKED_MASK_N_ALIGNMENT * P.FLASH_ATTEN_PACKED_MASK_N_ALIGNMENT := by
    have := hC.1.2.1
    omega
  have htd : Int.tdiv ((max_kv_seqlen + P.FLASH_ATTEN_PACKED_MASK_N_ALIGNMENT - 1)
      / P.FLASH_ATTEN_PACKED_MASK_N_ALIGNMENT * P.FLASH_ATTEN_PACKED_MASK_N_ALIGNMENT) 32
      = (max_kv_seqlen + P.FLASH_ATTEN_PACKED_MASK_N_ALIGNMENT - 1)
      / P.FLASH_ATTEN_PACKED_MASK_N_ALIGNMENT * P.FLASH_ATTEN_PACKED_MASK_N_ALIGNMENT / 32 :=
    Int.tdiv_eq_ediv hC0 (by decide)
  have hC32 : 0 ≤ (max_kv_seqlen + P.FLASH_ATTEN_PACKED_MASK_N_ALIGNMENT - 1)
      / P.FLASH_ATTEN_PACKED_MASK_N_ALIGNMENT * P.FLASH_ATTEN_PACKED_MASK_N_ALIGNMENT / 32 :=
    Int.ediv_nonneg hC0 (by decide)
  refine ⟨_, _, hR.1, hR.2, hC.1, hC.2, ?_, ?_, ?_⟩
  · have hb64 : castInt64 (batch_size + 1) = batch_size + 1 :=
      castInt64_of_nonneg_of_le _ (by omega) (by omega)
    have hb64' : 0 ≤ batch_size + 1 := by omega
    simp only [pack_fmha_mask_by_type, hcq, hckv, hrows, hcols, htd, hb64, torch_empty,
      List.all_cons, List.all_nil, Bool.and_true, decide_eq_true hb64', decide_eq_true hb0,
      decide_eq_true hR0, decide_eq_true hC32, Bool.and_self, if_true, bind, Except.bind,
      pure, Except.pure]
  · intro h1 h2 h3 h4 hs ht hne hb hb2
    have hnum : mask_input.numel ≠ 0 := by
      simp only [Tensor.numel, hs, List.prod_cons, List.prod_nil, mul_one]
      have hqk : 0 < max_q_seqlen * max_kv_seqlen := mul_pos (by omega) (by omega)
      exact ne_of_gt (mul_pos (by omega) hqk)
    have hdim : mask_input.dim = 3 := by simp [Tensor.dim, hs]
    have hty : (mask_input.scalar_type == ScalarType.Float
        || mask_input.scalar_type == ScalarType.Half
        || mask_input.scalar_type == ScalarType.BFloat16
        || mask_input.scalar_type == ScalarType.Bool
        || mask_input.scalar_type == ScalarType.Int) = true := by
      rcases ht with h | h | h | h | h <;> rw [h] <;> decide
    have hs0 : mask_input.size 0 = batch_size := by simp [Tensor.size, hs]
    have hs1 : mask_input.size 1 = max_q_seqlen := by simp [Tensor.size, hs]
    have hs2 : mask_input.size 2 = max_kv_seqlen := by simp [Tensor.size, hs]
    have hb32 : EaglePlugin.castInt (batch_size + 1) = batch_size + 1 :=
      castInt_of_nonneg_of_le _ (by omega) hb2
    have hb32' : 0 ≤ batch_size + 1 := by omega
    have hchk : (mask_input.numel != 0 && actual_q_seqlens.numel != 0) = true := by
      simp [hnum, hne]
    have hdim' : (mask_input.dim == 3) = true := by simp [hdim]
    simp only [pack_fmha_mask_by_input_helper, h1, h2, h3, h4, hchk, hdim', hty, TORCH_CHECK,
      hs0, hs1, hs2, hcb, hcq, hckv, hrows, hcols, htd, hb32, torch_empty,
      List.all_cons, List.all_nil, Bool.and_true, decide_eq_true hb32', decide_eq_true hb0,
      decide_eq_true hR0, decide_eq_true hC32, Bool.and_self, if_true, bind, Except.bind,
      pure, Except.pure]
  · intro h1 h2 h3 h4 hz
    have hchk : (mask_input.numel != 0 && actual_q_seqlens.numel != 0) = false := by
      simp [hz]
    simp only [pack_fmha_mask_by_input_helper, h1, h2, h3, h4, hchk, TORCH_CHECK, bind,
      Except.bind]
    rfl

theorem packed_mask_shape_witness :
    pack_fmha_mask_by_type exampleHeaders (exampleSeqLens 2) (exampleSeqLens 2) 0 2 100 300
        = .ok ⟨[2, 128, 16], ScalarType.Int, DeviceType.CUDA⟩
      ∧ pack_fmha_mask_by_input_helper exampleHeaders (exampleMask [2, 100, 300])
          (exampleSeqLens 2) (exampleSeqLens 2)
        = .ok ⟨[2, 128, 16], ScalarType.Int, DeviceType.CUDA⟩
      ∧ ∃ aligned_rows aligned_cols : Int,
          LeastMultipleAtLeast 128 100 aligned_rows ∧ aligned_rows - 100 < 128
            ∧ LeastMultipleAtLeast 256 300 aligned_cols ∧ aligned_cols - 300 < 256
            ∧ pack_fmha_mask_by_type exampleHeaders (exampleSeqLens 2) (exampleSeqLens 2) 0
                2 100 300
              = .ok ⟨[2, aligned_rows, aligned_cols / 32], ScalarType.Int, DeviceType.CUDA⟩
            ∧ pack_fmha_mask_by_input_helper exampleHeaders (exampleMask [2, 100, 300])
                (exampleSeqLens 2) (exampleSeqLens 2)
              = .ok ⟨[2, aligned_rows, aligned_cols / 32], ScalarType.Int,
                  DeviceType.CUDA⟩ := by
  refine ⟨rfl, rfl, ?_⟩
  obtain ⟨r, c, h1, h2, h3, h4, h5, h6, _⟩ :=
    packed_mask_shape exampleHeaders (exampleMask [2, 100, 300]) (exampleSeqLens 2)
      (exampleSeqLens 2) 0 2 100 300 (by decide) (by decide) exampleHeaders_divUp
      (by decide) (by decide) (by decide) (by decide) (by decide) (by decide)
  exact ⟨r, c, h1, h2, h3, h4, h5,
    h6 rfl rfl rfl rfl rfl (Or.inl rfl) (by decide) (by decide) (by decide)⟩

end torch_ext
